import Mathlib

/-!
Verification of the `skytemple_dtef` DTEF importer
(`skytemple_dtef/explorers_dtef_importer.py`) against its specification.

The importer is shallowly embedded: the Python instance state becomes an
explicit `Session` record, every method becomes a Lean function threading a
`Session` and returning `Session × Option DtefError` (the state component is
the state at the moment of normal return or at the moment an exception is
raised, matching Python's in-place field mutation), and the file system /
PIL / XML collaborators become explicit data (`Package`, `ImgFile`, `XElem`).
Collaborator code that lives outside the repository (the `Dma` model,
`get_rule_variations`, the tile-sheet dimension constants, the XML tag
constants, the DPC codec) is modelled from the spec and marked as such.
-/

namespace Dtef

/-- Modelled from the spec: sub-tile constant `DPC_TILING_DIM` of the external
`skytemple_files.graphics.dpc` model ("fixed chunk pixel dimensions, derived
from two multiplied sub-tile constants"); value 3 chunks-per-tile. -/
def DPC_TILING_DIM : Nat := 3

/-- Modelled from the spec: sub-tile constant `DPCI_TILE_DIM` of the external
`skytemple_files.graphics.dpci` model; value 8 pixels per sub-tile. -/
def DPCI_TILE_DIM : Nat := 8

/-- `CHUNK_DIM = DPC_TILING_DIM * DPCI_TILE_DIM` (source line 42). -/
def CHUNK_DIM : Nat := DPC_TILING_DIM * DPCI_TILE_DIM

/-- `EMPTY_IMAGE = [0 for _ in range(CHUNK_DIM ** 2)]` (source line 46). -/
def EMPTY_IMAGE : List Nat := List.replicate (CHUNK_DIM ^ 2) 0

/-- A loaded PIL image: dimensions in pixels, mode, palette mode, palette
bytes, and the pixel value at each (x, y) coordinate. -/
structure ImgFile where
  width : Nat
  height : Nat
  mode : String
  paletteMode : String
  palette : List Nat
  px : Nat → Nat → Nat

/-- Pixel read with PIL `crop` semantics: coordinates outside the image read
as 0 (PIL pads out-of-bounds crop regions with fill value 0). -/
def pget (img : ImgFile) (x y : Nat) : Nat :=
  if x < img.width ∧ y < img.height then img.px x y else 0

/-- `getdata()` of `img.crop((px0, py0, px0 + CHUNK_DIM, py0 + CHUNK_DIM))`:
row-major pixel list of the chunk-sized box whose top-left pixel is
(px0, py0). -/
def cropDataAtPx (img : ImgFile) (px0 py0 : Nat) : List Nat :=
  (List.range CHUNK_DIM).flatMap fun r =>
    (List.range CHUNK_DIM).map fun c => pget img (px0 + c) (py0 + r)

/-- `getdata()` of the crop at grid cell (x, y):
`tileset.crop((x*CHUNK_DIM, y*CHUNK_DIM, (x+1)*CHUNK_DIM, (y+1)*CHUNK_DIM))`
(source lines 150-152). -/
def cropData (img : ImgFile) (x y : Nat) : List Nat :=
  cropDataAtPx img (x * CHUNK_DIM) (y * CHUNK_DIM)

/-- A parsed XML element: tag, attributes (in document order), child
elements and text content. -/
inductive XElem where
  | mk (tag : String) (attribs : List (String × String)) (children : List XElem)
       (text : String)

def XElem.tag : XElem → String
  | .mk t _ _ _ => t

def XElem.attribs : XElem → List (String × String)
  | .mk _ a _ _ => a

def XElem.children : XElem → List XElem
  | .mk _ _ c _ => c

def XElem.text : XElem → String
  | .mk _ _ _ t => t

/-- Attribute lookup (`element.attrib[k]`, first binding wins). -/
def XElem.attr? (e : XElem) (k : String) : Option String :=
  (e.attribs.find? fun p => p.1 = k).map Prod.snd

/-- A file of the DTEF package: either an image (openable by PIL) or an XML
document (parseable by ElementTree). -/
inductive DtefFile where
  | img (i : ImgFile)
  | xml (x : XElem)

/-- The package on disk: what `os.path.exists` / `Image.open` /
`ElementTree.parse` see, as a map from path to file content. -/
structure Package where
  files : String → Option DtefFile

/-- The error kinds the importer raises (all `ValueError` or built-in
exceptions in the source; categorised per the spec's error taxonomy). -/
inductive DtefError where
  /-- FileMissing: `_assert_file_exists` failed (source line 119). -/
  | fileMissing (fn : String)
  /-- `Image.open` on a file that is not an image. -/
  | notAnImage (fn : String)
  /-- FormatError: image is not mode 'P' (source line 127). -/
  | notIndexed (fn : String)
  /-- FormatError: palette is not 256 RGB entries (source line 130). -/
  | badPalette (fn : String)
  /-- FormatError: palette differs from the first image's (source line 135). -/
  | paletteMismatch (fn : String)
  /-- ValidationError: unexpected XML tag (`validate_xml_tag`). -/
  | xmlBadTag (expected actual : String)
  /-- ValidationError: missing XML attribute (`validate_xml_attribs`). -/
  | xmlMissingAttrib (a : String)
  /-- Parse failure of `ElementTree.parse`. -/
  | xmlParseFailed (fn : String)
  /-- SizeError: XML `dimensions` attribute differs from `CHUNK_DIM`
  (source line 83). -/
  | badDimensions (d : String)
  /-- SizeError: tile sheet too small for a terrain band (source line 144). -/
  | imageTooSmall (fn : String)
  /-- ValidationError: animation palette other than "10"/"11"
  (source line 105). -/
  | invalidAnimationPalette
  /-- ValidationError: an animation frame without exactly 16 colors
  (source line 251). -/
  | frameColorCount
  /-- ValidationError: unknown `<mapping>` type (source line 209). -/
  | unknownMappingType (t : String)
  /-- ValidationError: variation index outside 0..2 (source line 213). -/
  | invalidVariation (v : Int)
  /-- Python `int()` raised on a non-numeric string. -/
  | intParseFailed (s : String)
  /-- Python `KeyError` on a dict lookup. -/
  | keyError
  /-- Python `assert` failed (source lines 140-141). -/
  | assertionFailed
  /-- Python `IndexError` (`self._chunks[1]` with a pool of size < 2,
  source line 241). -/
  | indexError
deriving DecidableEq

/-- Terrain type (`DmaType` of the external `skytemple_files` library). -/
inductive DmaType where
  | wall
  | water
  | floor
deriving DecidableEq

/-- Extra-slot kind (`DmaExtraType` of the external library). -/
inductive DmaExtraType where
  | floor1
  | wall_or_void
  | floor2
deriving DecidableEq

/-- Modelled from the spec: the target neighbor-mapping model `Dma` of the
external `skytemple_files` library: "a flat array addressed by (terrain
type, rule id, variation) holding chunk-pool indices", plus the named
extra-slot tables addressed by slot index. -/
structure Dma where
  chunk_mappings : List Nat
  extras : DmaExtraType → Nat → Nat

/-- Modelled from the spec: base offset of a terrain band's region in the
flat mapping array (one region of 256 rules × 3 variations per band). -/
def dmaTypeBase : DmaType → Nat
  | .wall => 0
  | .water => 0x300
  | .floor => 0x600

/-- Modelled from the spec: flat index of (terrain, rule, variation). -/
def dmaIndex (typ : DmaType) (rule variation : Nat) : Nat :=
  dmaTypeBase typ + rule * 3 + variation

/-- `Dma.set(item_type, rule, variation_index, chunk)` of the external
library, modelled from the spec: writes the chunk index at the flat slot of
(terrain, rule, variation). -/
def Dma.set (d : Dma) (typ : DmaType) (rule variation chunk : Nat) : Dma :=
  { d with chunk_mappings := d.chunk_mappings.set (dmaIndex typ rule variation) chunk }

/-- `Dma.set_extra(extra_type, index, chunk)` of the external library,
modelled from the spec: "writes the chunk index into the corresponding named
extra-slot table at index n". -/
def Dma.set_extra (d : Dma) (t : DmaExtraType) (idx chunk : Nat) : Dma :=
  { d with extras := fun t2 i2 => if t2 = t ∧ i2 = idx then chunk else d.extras t2 i2 }

/-- The external `Dpci` model (opaque output sink; only its `tiles` field is
assigned by the importer). -/
structure Dpci where
  tiles : List Nat

/-- The external `Dpl` model (opaque output sink). -/
structure Dpl where
  palettes : List (List Nat)

/-- The external `Dpla` model (opaque output sink). -/
structure Dpla where
  colors : List (List Nat)
  durations_per_frame_for_colors : List Int

/-- The external `Dpc` model. The importer never mutates it (it only calls
its codec), so it carries no fields here. -/
structure Dpc where
  deriving DecidableEq

/-- Modelled from the spec: the external codec contract of `Dpc`,
`encode(strip_image) -> (tile_buffer, palette_table)`
(`dpc.pil_to_chunks`). Any fixed deterministic function is a faithful
stand-in: the claims never inspect the encoded buffers. -/
def dpc_pil_to_chunks (strip : List Nat) : List Nat × List (List Nat) :=
  (strip, [])

/-- Function-map update helper (Python dict assignment `m[k] = v`). -/
def fupd {κ α : Type} [DecidableEq κ] (m : κ → Option α) (k : κ) (v : α) :
    κ → Option α :=
  fun k2 => if k2 = k then some v else m k2

/-- `os.path.basename`: the part of the path after the last '/'. -/
def basename (fn : String) : String :=
  String.mk (((fn.data.reverse).takeWhile fun c => c ≠ '/').reverse)

/-- `os.path.join(dirname, fn)` (POSIX, `fn` relative). -/
def path_join (dirname fn : String) : String :=
  dirname ++ "/" ++ fn

/-- Value of an ASCII digit character. -/
def digitVal (c : Char) : Nat := c.toNat - '0'.toNat

/-- Numeric value of a digit string (most significant first). -/
def digitsToNat (ds : List Char) : Nat :=
  ds.foldl (fun acc c => 10 * acc + digitVal c) 0

/-- Python `int(s)`: optional sign followed by at least one digit.
(Python also strips whitespace and accepts underscores; the importer's
inputs never exercise those.) -/
def pyInt? (s : String) : Option Int :=
  match s.data with
  | [] => none
  | '-' :: ds =>
    if ds ≠ [] ∧ ds.all Char.isDigit then some (-(digitsToNat ds : Int)) else none
  | '+' :: ds =>
    if ds ≠ [] ∧ ds.all Char.isDigit then some (digitsToNat ds : Int) else none
  | ds =>
    if ds.all Char.isDigit then some (digitsToNat ds : Int) else none

/-- Value of a hexadecimal digit character (0 for non-hex characters; the
importer only reaches this on 6-hex-digit color strings). -/
def hexDigitVal (c : Char) : Nat :=
  if '0' ≤ c ∧ c ≤ '9' then c.toNat - '0'.toNat
  else if 'a' ≤ c ∧ c ≤ 'f' then c.toNat - 'a'.toNat + 10
  else if 'A' ≤ c ∧ c ≤ 'F' then c.toNat - 'A'.toNat + 10
  else 0

/-- `int(h[i:i+2], 16)`: value of the two-hex-digit slice starting at `i`. -/
def hexByteAt (cs : List Char) (i : Nat) : Nat :=
  16 * hexDigitVal (cs.getD i '0') + hexDigitVal (cs.getD (i + 1) '0')

/-- `_convert_hex_str_color_to_tuple(h)`: the three byte values of slices
(0,2), (2,4), (4,6) of a 6-hex-digit color string (source lines 269-271). -/
def _convert_hex_str_color_to_tuple (h : String) : List Nat :=
  [hexByteAt h.data 0, hexByteAt h.data 2, hexByteAt h.data 4]

/-- Modelled from the spec: XML tag and attribute name constants of the
external `skytemple_dtef.dungeon_xml` module (spec section 6: root tag
`dungeon-tileset`, attribute `dimensions`, children `animation`
(`palette`, `duration`) / `frame` / `color` / `additional-tiles` / `tile`
(`x`, `y`, `file`) / `mapping` (8 neighbor flags, `type`, `variation`) /
`special-mapping` (`identifier`)). -/
def DUNGEON_TILESET : String := "dungeon-tileset"

def DIMENSIONS : String := "dimensions"

def ANIMATION : String := "animation"

def ANIMATION__PALETTE : String := "palette"

def ANIMATION__DURATION : String := "duration"

def ADDITIONAL_TILES : String := "additional-tiles"

def FRAME : String := "frame"

def COLOR : String := "color"

def TILE : String := "tile"

def TILE__X : String := "x"

def TILE__Y : String := "y"

def TILE__FILE : String := "file"

def MAPPING : String := "mapping"

def SPECIAL_MAPPING : String := "special-mapping"

def MAPPING__TYPE : String := "type"

def MAPPING__TYPE__FLOOR : String := "floor"

def MAPPING__TYPE__WALL : String := "wall"

def MAPPING__TYPE__SECONDARY : String := "secondary"

def MAPPING__nw : String := "nw"

def MAPPING__n : String := "n"

def MAPPING__ne : String := "ne"

def MAPPING__e : String := "e"

def MAPPING__se : String := "se"

def MAPPING__s : String := "s"

def MAPPING__sw : String := "sw"

def MAPPING__w : String := "w"

def MAPPING__VARIATION : String := "variation"

def SPECIAL_MAPPING__IDENTIFIER : String := "identifier"

/-- Modelled from the spec: the 8 direction bit flags of the external
`DmaNeighbor` enum ("8-directional adjacency encoding", one bit per
direction). -/
def NEIGHBOR_NORTH : Nat := 0x01

def NEIGHBOR_NORTH_EAST : Nat := 0x02

def NEIGHBOR_EAST : Nat := 0x04

def NEIGHBOR_SOUTH_EAST : Nat := 0x08

def NEIGHBOR_SOUTH : Nat := 0x10

def NEIGHBOR_SOUTH_WEST : Nat := 0x20

def NEIGHBOR_WEST : Nat := 0x40

def NEIGHBOR_NORTH_WEST : Nat := 0x80

/-- Modelled from the spec: the static rule configuration of the repository
modules `skytemple_dtef.rules` / `skytemple_dtef.explorers_dtef` (not under
`src/`): `get_rule_variations(REMAP_RULES)` — "an ordered mapping from rule
id to the set of concrete neighbor-bit values it represents", kept abstract
as the ordered list of aliased-pattern groups — and the tile-sheet grid
dimensions `TILESHEET_WIDTH` / `TILESHEET_HEIGHT` in cells. -/
structure DtefConfig where
  rule_variations : List (List Nat)
  TILESHEET_WIDTH : Nat
  TILESHEET_HEIGHT : Nat

/-- The full instance state of `ExplorersDtefImporter`: the five target
models passed to `__init__` plus the private working fields. -/
structure Session where
  dma : Dma
  dpc : Dpc
  dpci : Dpci
  dpl : Dpl
  dpla : Dpla
  dirname : Option String
  tileset_file_map : String → Option ImgFile
  tileset_chunk_map : String → Option (Nat × Nat → Option Nat)
  xml : Option XElem
  chunks : List (List Nat)
  palette : Option (List Nat)
  dpla__colors : List (List Nat)
  dpla__durations_per_frame_for_colors : List Int
  dma__original_chunk_mappings : List Nat

/-- `__init__` (source lines 50-68) followed by `self._dirname = dirname`
(line 74): all working state is reset; the current `dma.chunk_mappings` is
snapshotted into `_dma__original_chunk_mappings` and the live table is
replaced by an all-zero table of the same length. A chunk pool containing
only the empty chunk (`Image.new('P', (CHUNK_DIM, CHUNK_DIM))`, all pixels
0) is pre-populated. -/
def reset_state (st : Session) (dirname : String) : Session where
  dma := { chunk_mappings := List.replicate st.dma.chunk_mappings.length 0,
           extras := st.dma.extras }
  dpc := st.dpc
  dpci := st.dpci
  dpl := st.dpl
  dpla := st.dpla
  dirname := some dirname
  tileset_file_map := fun _ => none
  tileset_chunk_map := fun _ => none
  xml := none
  chunks := [EMPTY_IMAGE]
  palette := none
  dpla__colors := []
  dpla__durations_per_frame_for_colors := []
  dma__original_chunk_mappings := st.dma.chunk_mappings

/-- A stage result: the session at normal return or at the raise point,
plus the raised error if any. -/
abbrev StageResult := Session × Option DtefError

/-- Sequencing of stages: a raised error short-circuits, keeping the state
at the raise point (Python exception propagation; field mutations already
performed stay in place). -/
def andThenS (r : StageResult) (f : Session → StageResult) : StageResult :=
  match r with
  | (s, none) => f s
  | e => e

/-- A Python `for` loop over `l` running `f` per element, aborting on the
first raised error. -/
def stageFold {σ α : Type} (f : α → σ → σ × Option DtefError) :
    List α → σ → σ × Option DtefError
  | [], s => (s, none)
  | a :: rest, s =>
    match f a s with
    | (s1, none) => stageFold f rest s1
    | e => e

/-- `validate_xml_tag` of the external `skytemple_files.common.xml_util`,
modelled from the spec: error unless the element's tag is the expected
one. -/
def validate_xml_tag (e : XElem) (t : String) : Option DtefError :=
  if e.tag = t then none else some (.xmlBadTag t e.tag)

/-- `validate_xml_attribs` of the external `skytemple_files.common.xml_util`,
modelled from the spec: error on the first required attribute that is
missing. -/
def validate_xml_attribs (e : XElem) : List String → Option DtefError
  | [] => none
  | a :: rest =>
    if (e.attr? a).isSome then validate_xml_attribs e rest
    else some (.xmlMissingAttrib a)

/-- `_assert_file_exists` (source lines 116-119). -/
def _assert_file_exists (pkg : Package) (fn : String) (s : Session) :
    StageResult :=
  match pkg.files fn with
  | none => (s, some (.fileMissing fn))
  | some _ => (s, none)

/-- `_open_tileset` (source lines 121-137). Note that the image is
registered in `_tileset_file_map` / `_tileset_chunk_map` before any
validation runs, exactly as in the source. -/
def _open_tileset (pkg : Package) (fn : String) (s : Session) : StageResult :=
  match pkg.files fn with
  | none => (s, some (.fileMissing fn))
  | some (.xml _) => (s, some (.notAnImage fn))
  | some (.img pil) =>
    let bn := basename fn
    let s := { s with tileset_file_map := fupd s.tileset_file_map bn pil,
                      tileset_chunk_map := fupd s.tileset_chunk_map bn (fun _ => none) }
    if pil.mode ≠ "P" then (s, some (.notIndexed bn))
    else if pil.paletteMode ≠ "RGB" ∨ pil.palette.length ≠ 256 * 3 then
      (s, some (.badPalette bn))
    else
      match s.palette with
      | none => ({ s with palette := some pil.palette }, none)
      | some p =>
        if pil.palette ≠ p then (s, some (.paletteMismatch bn)) else (s, none)

/-- `chunkScan`: the linear scan of `_insert_chunk_or_reuse` (source lines
163-165) — the index of the first pool entry with the given pixel data. -/
def chunkScan (chunks : List (List Nat)) (nc : List Nat) : Option Nat :=
  match chunks with
  | [] => none
  | c :: rest => if c = nc then some 0 else (chunkScan rest nc).map (· + 1)

/-- `_insert_chunk_or_reuse` (source lines 162-168): return the index of the
first pool entry with equal pixel data, else append and return the new
index. -/
def _insert_chunk_or_reuse (chunks : List (List Nat)) (new_chunk : List Nat) :
    List (List Nat) × Nat :=
  match chunkScan chunks new_chunk with
  | some i => (chunks, i)
  | none => (chunks ++ [new_chunk], chunks.length)

/-- One iteration of the `for i, rules in enumerate(rule_map.values())` loop
of `_import_tileset` (source lines 147-160): crop the chunk at grid cell
`(bx + i % w, by + i // w)`, either reuse the previous variation's index
(variation > 0 and fully empty crop) or insert-or-reuse into the pool,
record the index in this file's position cache, and write it to the target
table for every aliased raw rule. -/
def _import_tileset_cell (typ : DmaType) (bx byv w : Nat) (var_id : Nat)
    (fn : String) (prev_fn : Option String) (tileset : ImgFile)
    (e : Nat × List Nat) (s : Session) : StageResult :=
  let x := bx + e.1 % w
  let y := byv + e.1 / w
  let cropped := cropData tileset x y
  let idxR : Except DtefError (Session × Nat) :=
    if var_id > 0 ∧ cropped = EMPTY_IMAGE then
      match prev_fn with
      | none => .error .keyError
      | some pfn =>
        match s.tileset_chunk_map pfn with
        | none => .error .keyError
        | some pm =>
          match pm (x, y) with
          | none => .error .keyError
          | some ci => .ok (s, ci)
    else
      let r := _insert_chunk_or_reuse s.chunks cropped
      .ok ({ s with chunks := r.1 }, r.2)
  match idxR with
  | .error err => (s, some err)
  | .ok (s1, chunk_index) =>
    match s1.tileset_chunk_map fn with
    | none => (s1, some .keyError)
    | some m =>
      let s2 := { s1 with
        tileset_chunk_map := fupd s1.tileset_chunk_map fn (fupd m (x, y) chunk_index) }
      let s3 := { s2 with
        dma := e.2.foldl (fun d rule => d.set typ rule var_id chunk_index) s2.dma }
      (s3, none)

/-- `_import_tileset` (source lines 139-160): assert the file is loaded,
check the size guard, then run the rule-grid loop. -/
def _import_tileset (rule_map : List (List Nat)) (typ : DmaType)
    (bx byv w h : Nat) (var_id : Nat) (fn : String) (prev_fn : Option String)
    (s : Session) : StageResult :=
  match s.tileset_file_map fn, s.tileset_chunk_map fn with
  | some tileset, some _ =>
    if tileset.height < byv + h ∨ tileset.width < bx + w then
      (s, some (.imageTooSmall fn))
    else
      stageFold (_import_tileset_cell typ bx byv w var_id fn prev_fn tileset)
        rule_map.enum s
  | _, _ => (s, some .assertionFailed)

/-- `re.match` of the fixed patterns `EOS_EXTRA_..._(\d+)` (source lines
43-45, 219-227): Python `match` anchors at the start of the string only, so
the pattern chars must be a prefix, followed by the greedy maximal nonempty
digit run, with arbitrary trailing characters allowed; the captured group is
that digit run. -/
def patternMatchNum (pat : List Char) (s : List Char) : Option Nat :=
  if pat.isPrefixOf s then
    let ds := (s.drop pat.length).takeWhile Char.isDigit
    if ds.isEmpty then none else some (digitsToNat ds)
  else none

/-- The literal part of `PATTERN_FLOOR1` (source line 43). -/
def floor1Pat : List Char := "EOS_EXTRA_FLOOR1_".data

/-- The literal part of `PATTERN_FLOOR2` (source line 44). -/
def floor2Pat : List Char := "EOS_EXTRA_FLOOR2_".data

/-- The literal part of `PATTERN_WALL_OR_VOID` (source line 45). -/
def wallOrVoidPat : List Char := "EOS_EXTRA_WALL_OR_VOID_".data

/-- The `<special-mapping>` branch body (source lines 219-227): each of the
three patterns is tried in turn; each match writes the chunk into the
corresponding extra-slot table. -/
def process_special_mapping (chunk : Nat) (ident : String) (s : Session) :
    Session :=
  let s1 :=
    match patternMatchNum floor1Pat ident.data with
    | some n => { s with dma := s.dma.set_extra .floor1 n chunk }
    | none => s
  let s2 :=
    match patternMatchNum floor2Pat ident.data with
    | some n => { s1 with dma := s1.dma.set_extra .floor2 n chunk }
    | none => s1
  match patternMatchNum wallOrVoidPat ident.data with
  | some n => { s2 with dma := s2.dma.set_extra .wall_or_void n chunk }
  | none => s2

/-- `bool(int(attr))` on a neighbor-flag attribute (source lines 185-200). -/
def pyBoolInt (v : String) : Except DtefError Bool :=
  match pyInt? v with
  | none => .error (.intParseFailed v)
  | some i => .ok (i ≠ 0)

/-- The neighbor-bit accumulation of the `<mapping>` branch (source lines
184-200): OR the direction flag for every truthy attribute, in source
order. -/
def parse_neighbors (mapping : XElem) : Except DtefError Nat := do
  let att := fun a => (mapping.attr? a).getD ("")
  let bnw ← pyBoolInt (att MAPPING__nw)
  let bn ← pyBoolInt (att MAPPING__n)
  let bne ← pyBoolInt (att MAPPING__ne)
  let be ← pyBoolInt (att MAPPING__e)
  let bse ← pyBoolInt (att MAPPING__se)
  let bs ← pyBoolInt (att MAPPING__s)
  let bsw ← pyBoolInt (att MAPPING__sw)
  let bw ← pyBoolInt (att MAPPING__w)
  let n : Nat := 0
  let n := if bnw then n ||| NEIGHBOR_NORTH_WEST else n
  let n := if bn then n ||| NEIGHBOR_NORTH else n
  let n := if bne then n ||| NEIGHBOR_NORTH_EAST else n
  let n := if be then n ||| NEIGHBOR_EAST else n
  let n := if bse then n ||| NEIGHBOR_SOUTH_EAST else n
  let n := if bs then n ||| NEIGHBOR_SOUTH else n
  let n := if bsw then n ||| NEIGHBOR_SOUTH_WEST else n
  let n := if bw then n ||| NEIGHBOR_WEST else n
  pure n

/-- One iteration of the `for mapping in tile` loop of
`_import_additional_tiles` (source lines 178-227): a `<mapping>` child
decodes the neighbor flags, terrain type, and variation and writes the
chunk into the target table; a `<special-mapping>` child runs the pattern
matching; any other tag is skipped. -/
def process_mapping (chunk : Nat) (mapping : XElem) (s : Session) :
    StageResult :=
  if mapping.tag = MAPPING then
    match validate_xml_attribs mapping [MAPPING__TYPE, MAPPING__nw,
        MAPPING__n, MAPPING__ne, MAPPING__e, MAPPING__se, MAPPING__s,
        MAPPING__sw, MAPPING__w, MAPPING__VARIATION] with
    | some err => (s, some err)
    | none =>
      match parse_neighbors mapping with
      | .error err => (s, some err)
      | .ok n =>
        let tyAttr := (mapping.attr? MAPPING__TYPE).getD ("")
        let typR : Except DtefError DmaType :=
          if tyAttr = MAPPING__TYPE__FLOOR then .ok .floor
          else if tyAttr = MAPPING__TYPE__WALL then .ok .wall
          else if tyAttr = MAPPING__TYPE__SECONDARY then .ok .water
          else .error (.unknownMappingType tyAttr)
        match typR with
        | .error err => (s, some err)
        | .ok typ =>
          match pyInt? ((mapping.attr? MAPPING__VARIATION).getD ("")) with
          | none =>
            (s, some (.intParseFailed ((mapping.attr? MAPPING__VARIATION).getD (""))))
          | some var_idx =>
            if var_idx < 0 ∨ var_idx > 2 then
              (s, some (.invalidVariation var_idx))
            else
              ({ s with dma := s.dma.set typ n var_idx.toNat chunk }, none)
  else if mapping.tag = SPECIAL_MAPPING then
    match validate_xml_attribs mapping [SPECIAL_MAPPING__IDENTIFIER] with
    | some err => (s, some err)
    | none =>
      (process_special_mapping chunk
        ((mapping.attr? SPECIAL_MAPPING__IDENTIFIER).getD ("")) s, none)
  else (s, none)

/-- The pixel origins of the grid-partition loop of
`_read_additional_chunk_idx` (source lines 233-234): row-major over
`range(0, height, CHUNK_DIM) × range(0, width, CHUNK_DIM)`. -/
def gridOrigins (width height : Nat) : List (Nat × Nat) :=
  (List.range ((height + CHUNK_DIM - 1) / CHUNK_DIM)).flatMap fun ry =>
    (List.range ((width + CHUNK_DIM - 1) / CHUNK_DIM)).map fun rx =>
      (rx * CHUNK_DIM, ry * CHUNK_DIM)

/-- One iteration of the grid-partition loop (source lines 235-236): insert
the chunk-sized crop at pixel origin `(ix, iy)` and record its pool index
under grid key `(ix // CHUNK_DIM, iy // CHUNK_DIM)`. -/
def _read_additional_grid_cell (fn : String) (tileset : ImgFile)
    (p : Nat × Nat) (s : Session) : StageResult :=
  let r := _insert_chunk_or_reuse s.chunks (cropDataAtPx tileset p.1 p.2)
  let s1 := { s with chunks := r.1 }
  match s1.tileset_chunk_map fn with
  | none => (s1, some .keyError)
  | some m =>
    let m2 := fupd m (p.1 / CHUNK_DIM, p.2 / CHUNK_DIM) r.2
    ({ s1 with tileset_chunk_map := fupd s1.tileset_chunk_map fn m2 }, none)

/-- `_read_additional_chunk_idx` (source lines 229-237): lazily load and
grid-partition the referenced file, then look up the chunk index recorded
for grid cell `(x, y)`. Returns the index alongside the state. A negative
`x`/`y` or an unpartitioned cell is a Python `KeyError`. -/
def _read_additional_chunk_idx (pkg : Package) (fn : String) (x y : Int)
    (dirname : String) (s : Session) :
    Session × Except DtefError Nat :=
  let loaded : StageResult :=
    if (s.tileset_file_map fn).isSome then (s, none)
    else
      andThenS (_open_tileset pkg (path_join dirname fn) s) fun s1 =>
        match s1.tileset_file_map fn with
        | none => (s1, some .keyError)
        | some tileset =>
          stageFold (_read_additional_grid_cell fn tileset)
            (gridOrigins tileset.width tileset.height) s1
  match loaded with
  | (s1, some err) => (s1, .error err)
  | (s1, none) =>
    if x < 0 ∨ y < 0 then (s1, .error .keyError)
    else
      match s1.tileset_chunk_map fn with
      | none => (s1, .error .keyError)
      | some m =>
        match m (x.toNat, y.toNat) with
        | none => (s1, .error .keyError)
        | some ci => (s1, .ok ci)

/-- One iteration of the `for tile in xml` loop of
`_import_additional_tiles` (source lines 171-227). -/
def _import_additional_tile (pkg : Package) (dirname : String) (tile : XElem)
    (s : Session) : StageResult :=
  match validate_xml_tag tile TILE with
  | some err => (s, some err)
  | none =>
    match validate_xml_attribs tile [TILE__X, TILE__Y, TILE__FILE] with
    | some err => (s, some err)
    | none =>
      let xs := (tile.attr? TILE__X).getD ("")
      let ys := (tile.attr? TILE__Y).getD ("")
      match pyInt? xs with
      | none => (s, some (.intParseFailed xs))
      | some x =>
        match pyInt? ys with
        | none => (s, some (.intParseFailed ys))
        | some y =>
          match _read_additional_chunk_idx pkg ((tile.attr? TILE__FILE).getD (""))
              x y dirname s with
          | (s1, .error err) => (s1, some err)
          | (s1, .ok chunk) => stageFold (process_mapping chunk) tile.children s1

/-- `_import_additional_tiles` (source lines 170-227). -/
def _import_additional_tiles (pkg : Package) (dirname : String) (xml : XElem)
    (s : Session) : StageResult :=
  stageFold (_import_additional_tile pkg dirname) xml.children s

/-- The per-color body of `_prepare_import_animation` (source lines
253-255): validate the `<color>` tag and append the three parsed bytes to
slot `i`'s sequence. -/
def accum_frame_colors (colors : List (List Nat)) :
    List XElem → Nat → Except DtefError (List (List Nat))
  | [], _ => .ok colors
  | c :: rest, i =>
    match validate_xml_tag c COLOR with
    | some err => .error err
    | none =>
      accum_frame_colors
        (colors.set i (colors.getD i [] ++ _convert_hex_str_color_to_tuple c.text))
        rest (i + 1)

/-- The `for frame in child` loop of `_prepare_import_animation` (source
lines 248-255). -/
def accum_frames (colors : List (List Nat)) :
    List XElem → Except DtefError (List (List Nat))
  | [] => .ok colors
  | f :: rest =>
    match validate_xml_tag f FRAME with
    | some err => .error err
    | none =>
      if f.children.length ≠ 16 then .error .frameColorCount
      else
        match accum_frame_colors colors f.children 0 with
        | .error err => .error err
        | .ok colors1 => accum_frames colors1 rest

/-- `_prepare_import_animation` (source lines 246-256): accumulate 16
color-cycle sequences across the frames in document order, then parse the
`duration` attribute. -/
def _prepare_import_animation (child : XElem) :
    Except DtefError (List (List Nat) × Int) :=
  match accum_frames (List.replicate 16 []) child.children with
  | .error err => .error err
  | .ok colors =>
    match child.attr? ANIMATION__DURATION with
    | none => .error .keyError
    | some ds =>
      match pyInt? ds with
      | none => .error (.intParseFailed ds)
      | some d => .ok (colors, d)

/-- `_import_animation` (source lines 258-260): concatenate the two tracks
and broadcast each duration over its 16 slots. -/
def _import_animation (ani0 ani1 : List (List Nat)) (dur0 dur1 : Int)
    (s : Session) : Session :=
  { s with
    dpla__colors := ani0 ++ ani1,
    dpla__durations_per_frame_for_colors :=
      List.replicate 16 dur0 ++ List.replicate 16 dur1 }

/-- The running animation accumulator of `do_import` (locals `ani0`, `ani1`,
`dur0`, `dur1`, source lines 93-96). -/
structure AniAcc where
  ani0 : List (List Nat)
  ani1 : List (List Nat)
  dur0 : Int
  dur1 : Int

/-- One iteration of the `for child in self._xml` loop of `do_import`
(source lines 97-107): an `<animation>` child replaces the track for its
palette (only "10" and "11" are allowed); an `<additional-tiles>` child runs
the additional-tile importer; other tags are skipped. -/
def import_child (pkg : Package) (dirname : String) (child : XElem)
    (sa : Session × AniAcc) : (Session × AniAcc) × Option DtefError :=
  let s := sa.1
  let a := sa.2
  if child.tag = ANIMATION then
    match validate_xml_attribs child [ANIMATION__PALETTE, ANIMATION__DURATION] with
    | some err => (sa, some err)
    | none =>
      if (child.attr? ANIMATION__PALETTE).getD ("") = "10" then
        match _prepare_import_animation child with
        | .error err => (sa, some err)
        | .ok r => ((s, { a with ani0 := r.1, dur0 := r.2 }), none)
      else if (child.attr? ANIMATION__PALETTE).getD ("") = "11" then
        match _prepare_import_animation child with
        | .error err => (sa, some err)
        | .ok r => ((s, { a with ani1 := r.1, dur1 := r.2 }), none)
      else (sa, some .invalidAnimationPalette)
  else if child.tag = ADDITIONAL_TILES then
    match _import_additional_tiles pkg dirname child s with
    | (s1, none) => ((s1, a), none)
    | (s1, some err) => ((s1, a), some err)
  else (sa, none)

/-- The animation/additional-tiles phase of `do_import` (source lines
93-108): run the child loop starting from 16 empty sequences and zero
durations per track, then `_import_animation`. -/
def import_children_phase (pkg : Package) (dirname : String) (s : Session) :
    StageResult :=
  match s.xml with
  | none => (s, some .keyError)
  | some x =>
    let a0 : AniAcc :=
      { ani0 := List.replicate 16 [], ani1 := List.replicate 16 [],
        dur0 := 0, dur1 := 0 }
    match stageFold (import_child pkg dirname) x.children (s, a0) with
    | ((s1, a), none) => (_import_animation a.ani0 a.ani1 a.dur0 a.dur1 s1, none)
    | ((s1, _), some err) => (s1, some err)

/-- `_merge_chunks` (source lines 239-244): the horizontal strip of the
whole pool. The exact pixel layout of the strip is irrelevant to every
claim; modelled from the spec as the concatenation of the pool entries
("concatenates the full chunk pool (index 0 first) into one horizontal
strip"). `self._chunks[1].getpalette()` raises IndexError when the pool has
fewer than two entries. -/
def _merge_chunks (chunks : List (List Nat)) : Except DtefError (List Nat) :=
  if chunks.length ≤ 1 then .error .indexError
  else .ok (chunks.foldl (· ++ ·) [])

/-- `_finalize` (source lines 262-267). -/
def _finalize (s : Session) : StageResult :=
  match _merge_chunks s.chunks with
  | .error err => (s, some err)
  | .ok strip =>
    let tp := dpc_pil_to_chunks strip
    ({ s with
        dpl := { palettes := tp.2 },
        dpci := { tiles := tp.1 },
        dpla := { colors := s.dpla__colors,
                  durations_per_frame_for_colors :=
                    s.dpla__durations_per_frame_for_colors } }, none)

/-- The root-XML parsing and validation of `do_import` (source lines 79-84):
parse, store in `self._xml`, validate the root tag, require `dimensions`,
and require its integer value to equal `CHUNK_DIM`. -/
def parse_and_validate_xml (pkg : Package) (fn_xml : String) (s : Session) :
    StageResult :=
  match pkg.files fn_xml with
  | none => (s, some (.xmlParseFailed fn_xml))
  | some (.img _) => (s, some (.xmlParseFailed fn_xml))
  | some (.xml x) =>
    let s := { s with xml := some x }
    match validate_xml_tag x DUNGEON_TILESET with
    | some err => (s, some err)
    | none =>
      match validate_xml_attribs x [DIMENSIONS] with
      | some err => (s, some err)
      | none =>
        let dstr := (x.attr? DIMENSIONS).getD ("")
        match pyInt? dstr with
        | none => (s, some (.intParseFailed dstr))
        | some d =>
          if d ≠ (CHUNK_DIM : Int) then (s, some (.badDimensions dstr))
          else (s, none)

/-- One iteration of the `for i, fn in enumerate(ts)` loop of `do_import`
(source lines 88-91): the three terrain bands of variation `i`. -/
def import_variation (cfg : DtefConfig) (ts : List String)
    (e : Nat × String) (s : Session) : StageResult :=
  let prev : Option String := if e.1 > 0 then ts.get? (e.1 - 1) else none
  andThenS
    (_import_tileset cfg.rule_variations .wall 0 0
      cfg.TILESHEET_WIDTH cfg.TILESHEET_HEIGHT e.1 e.2 prev s) fun s1 =>
  andThenS
    (_import_tileset cfg.rule_variations .water cfg.TILESHEET_WIDTH 0
      cfg.TILESHEET_WIDTH cfg.TILESHEET_HEIGHT e.1 e.2 prev s1) fun s2 =>
    _import_tileset cfg.rule_variations .floor (cfg.TILESHEET_WIDTH * 2) 0
      cfg.TILESHEET_WIDTH cfg.TILESHEET_HEIGHT e.1 e.2 prev s2

/-- The `try` body of `do_import` (source lines 72-110), starting from the
freshly reset state. -/
def import_rest (cfg : DtefConfig) (pkg : Package)
    (dirname fn_xml fn_var0 fn_var1 fn_var2 : String) (s0 : Session) :
    StageResult :=
  andThenS (_assert_file_exists pkg fn_xml s0) fun s1 =>
  andThenS (_open_tileset pkg fn_var0 s1) fun s2 =>
  andThenS (_open_tileset pkg fn_var1 s2) fun s3 =>
  andThenS (_open_tileset pkg fn_var2 s3) fun s4 =>
  andThenS (parse_and_validate_xml pkg fn_xml s4) fun s5 =>
  let ts := [basename fn_var0, basename fn_var1, basename fn_var2]
  andThenS (stageFold (import_variation cfg ts) ts.enum s5) fun s6 =>
  andThenS (import_children_phase pkg dirname s6) fun s7 =>
    _finalize s7

/-- `do_import` (source lines 70-114): reset via `__init__`, run the import
pipeline, and on any raised error restore `dma.chunk_mappings` from the
snapshot taken at reset before re-raising. -/
def do_import (cfg : DtefConfig) (pkg : Package)
    (dirname fn_xml fn_var0 fn_var1 fn_var2 : String) (st : Session) :
    StageResult :=
  match import_rest cfg pkg dirname fn_xml fn_var0 fn_var1 fn_var2
      (reset_state st dirname) with
  | (s, some err) =>
    ({ s with dma := { s.dma with chunk_mappings := s.dma__original_chunk_mappings } },
     some err)
  | r => r

/-- An arbitrary interleaved sequence of further pool insertions (the other
`_insert_chunk_or_reuse` calls of the same import session between the two
insertions of interest). -/
def insertAll (c : List (List Nat)) (ws : List (List Nat)) :
    List (List Nat) :=
  ws.foldl (fun c2 x => (_insert_chunk_or_reuse c2 x).1) c

/-- A concrete session used by the evaluation witnesses. -/
def exSession : Session where
  dma := ⟨List.replicate 2496 0, fun _ _ => 0⟩
  dpc := ⟨⟩
  dpci := ⟨[]⟩
  dpl := ⟨[]⟩
  dpla := ⟨[], []⟩
  dirname := none
  tileset_file_map := fun _ => none
  tileset_chunk_map := fun _ => none
  xml := none
  chunks := [EMPTY_IMAGE]
  palette := none
  dpla__colors := []
  dpla__durations_per_frame_for_colors := []
  dma__original_chunk_mappings := List.replicate 2496 0


/-- The rule-write fold of one grid cell (source lines 159-160). -/
def dmaSetAll (rules : List Nat) (typ : DmaType) (var ci : Nat) (d : Dma) :
    Dma :=
  rules.foldl (fun d2 rule => d2.set typ rule var ci) d

/-- A fully empty (all pixels 0) tile-sheet image used by witnesses. -/
def c3Img : ImgFile := ⟨48, 24, "P", "RGB", List.replicate 768 0, fun _ _ => 0⟩


/-- Session in which a previous variation recorded chunk 5 at cell (0, 0). -/
def c3Session : Session :=
  { exSession with
    tileset_chunk_map :=
      fupd (fupd (fun _ => none) "prev.png" (fupd (fun _ => none) (0, 0) 5))
        "cur.png" (fun _ => none) }

/-- Session in which the 47-pixel-wide image `c8Img` is registered as a
loaded tile sheet. -/
def c8Img : ImgFile := ⟨47, 24, "P", "RGB", List.replicate 768 0, fun _ _ => 0⟩

def c8Session : Session :=
  { exSession with
    tileset_file_map := fupd (fun _ => none) "a.png" c8Img,
    tileset_chunk_map := fupd (fun _ => none) "a.png" (fun _ => none) }

/-- Placeholder element for total indexing into a frame's children. -/
def nullElem : XElem := .mk ("") [] [] ("")


/-- The expected contents of color-cycle slot `j`: one parsed RGB triple per
frame, in document order. -/
def frameSlotBytes (frames : List XElem) (j : Nat) : List Nat :=
  (frames.map fun f =>
    _convert_hex_str_color_to_tuple ((f.children.getD j nullElem).text)).flatten

/-- A well-formed 16-color frame for the C6 witness. -/
def c6Frame : XElem :=
  .mk FRAME [] (List.replicate 16 (.mk COLOR [] [] "0a0b0c")) ""


/-- A well-formed animation element: palette 10, duration 20, 2 frames. -/
def c6Child : XElem :=
  .mk ANIMATION [(ANIMATION__PALETTE, "10"), (ANIMATION__DURATION, "20")]
    [c6Frame, c6Frame] ""


/-- An animation element whose single frame has only 15 colors. -/
def c6Bad : XElem :=
  .mk ANIMATION [(ANIMATION__PALETTE, "10"), (ANIMATION__DURATION, "20")]
    [.mk FRAME [] (List.replicate 15 (.mk COLOR [] [] "0a0b0c")) ""] ""


/-- A 48×24 tile sheet whose top-left pixel is nonzero (so grid cell (0,0)
is not empty while cell (1,0) is). -/
def c9Img : ImgFile :=
  ⟨48, 24, "P", "RGB", List.replicate 768 0,
    fun x y => if x = 0 ∧ y = 0 then 9 else 0⟩

def c9Session : Session :=
  { exSession with
    tileset_file_map := fupd (fun _ => none) "a.png" c9Img,
    tileset_chunk_map := fupd (fun _ => none) "a.png" (fun _ => none) }

/-! ## Lemmas about the chunk pool scan -/

theorem chunkScan_getD (c : List (List Nat)) (a : List Nat) (i : Nat)
    (h : chunkScan c a = some i) : c.get? i = some a := by
  induction c generalizing i with
  | nil => simp [chunkScan] at h
  | cons x rest ih =>
    by_cases hx : x = a
    · simp [chunkScan, hx] at h
      subst h
      simp [hx]
    · simp [chunkScan, hx] at h
      obtain ⟨i', hi', rfl⟩ := h
      simpa using ih i' hi'

theorem chunkScan_append_stable (c d : List (List Nat)) (a : List Nat)
    (i : Nat) (h : chunkScan c a = some i) :
    chunkScan (c ++ d) a = some i := by
  induction c generalizing i with
  | nil => simp [chunkScan] at h
  | cons x rest ih =>
    by_cases hx : x = a
    · simp [chunkScan, hx] at h ⊢
      exact h
    · simp [chunkScan, hx] at h ⊢
      obtain ⟨i', hi', rfl⟩ := h
      exact ⟨i', ih i' hi', rfl⟩

theorem chunkScan_append_self (c : List (List Nat)) (a : List Nat)
    (h : chunkScan c a = none) :
    chunkScan (c ++ [a]) a = some c.length := by
  induction c with
  | nil => simp [chunkScan]
  | cons x rest ih =>
    by_cases hx : x = a
    · simp [chunkScan, hx] at h
    · simp [chunkScan, hx] at h ⊢
      exact ih h

theorem insert_chunk_extends (c : List (List Nat)) (a : List Nat) :
    ∃ d, (_insert_chunk_or_reuse c a).1 = c ++ d := by
  unfold _insert_chunk_or_reuse
  cases h : chunkScan c a with
  | none => exact ⟨[a], rfl⟩
  | some i => exact ⟨[], by simp⟩

theorem insert_chunk_scan_self (c : List (List Nat)) (a : List Nat) :
    chunkScan (_insert_chunk_or_reuse c a).1 a =
      some (_insert_chunk_or_reuse c a).2 := by
  unfold _insert_chunk_or_reuse
  cases h : chunkScan c a with
  | none => simpa using chunkScan_append_self c a h
  | some i => simpa using h


theorem insertAll_extends (ws : List (List Nat)) (c : List (List Nat)) :
    ∃ d, insertAll c ws = c ++ d := by
  induction ws generalizing c with
  | nil => exact ⟨[], by simp [insertAll]⟩
  | cons w rest ih =>
    obtain ⟨d1, hd1⟩ := insert_chunk_extends c w
    obtain ⟨d2, hd2⟩ := ih (_insert_chunk_or_reuse c w).1
    exact ⟨d1 ++ d2, by simp [insertAll] at hd2 ⊢; rw [hd2, hd1, List.append_assoc]⟩

/-- C2: two insertions of the same import session (with arbitrary other
insertions `ws` between them) receive the same pool index exactly when
their pixel contents are byte-identical. -/
theorem c2_insert_or_reuse_dedup (c : List (List Nat)) (a b : List Nat)
    (ws : List (List Nat)) :
    a = b ↔
      (_insert_chunk_or_reuse c a).2 =
        (_insert_chunk_or_reuse (insertAll (_insert_chunk_or_reuse c a).1 ws) b).2 := by
  set c1 := (_insert_chunk_or_reuse c a).1 with hc1
  set i := (_insert_chunk_or_reuse c a).2 with hi
  have hscan1 : chunkScan c1 a = some i := insert_chunk_scan_self c a
  obtain ⟨d, hd⟩ := insertAll_extends ws c1
  have hscan2 : chunkScan (insertAll c1 ws) a = some i := by
    rw [hd]; exact chunkScan_append_stable c1 d a i hscan1
  constructor
  · rintro rfl
    unfold _insert_chunk_or_reuse
    rw [hscan2]
  · intro hij
    by_contra hab
    set c2 := insertAll c1 ws with hc2
    set j := (_insert_chunk_or_reuse c2 b).2 with hj
    have hscan3 : chunkScan (_insert_chunk_or_reuse c2 b).1 b = some j :=
      insert_chunk_scan_self c2 b
    obtain ⟨e, he⟩ := insert_chunk_extends c2 b
    have hscan4 : chunkScan (_insert_chunk_or_reuse c2 b).1 a = some i := by
      rw [he]; exact chunkScan_append_stable c2 e a i hscan2
    have hga := chunkScan_getD _ a i hscan4
    have hgb := chunkScan_getD _ b j hscan3
    rw [← hij] at hgb
    rw [hga] at hgb
    exact hab (Option.some.inj hgb)

/-! ## C5: palette mismatch rejection -/

/-- C5: once a palette has been established by the first successfully loaded
tile sheet, loading an indexed 256-color image whose palette bytes differ in
any byte raises the palette-mismatch FormatError, and the chunk pool is left
exactly as it was before the failed load. -/
theorem c5_palette_mismatch (pkg : Package) (fn : String) (s : Session)
    (p : List Nat) (pil : ImgFile)
    (hfile : pkg.files fn = some (.img pil))
    (hq : s.palette = some p)
    (hmode : pil.mode = "P")
    (hpmode : pil.paletteMode = "RGB")
    (hplen : pil.palette.length = 256 * 3)
    (hne : pil.palette ≠ p) :
    (_open_tileset pkg fn s).2 = some (.paletteMismatch (basename fn)) ∧
      (_open_tileset pkg fn s).1.chunks = s.chunks := by
  unfold _open_tileset
  rw [hfile]
  simp [hmode, hpmode, hplen, hq, hne]

/-- Witness for C5 at a concrete mismatching second image. -/
theorem c5_palette_mismatch_witness :
    (_open_tileset
        ⟨fun fn => if fn = "b.png" then
            some (.img ⟨24, 24, "P", "RGB", List.replicate 768 1, fun _ _ => 0⟩)
          else none⟩
        "b.png"
        { dma := ⟨[0], fun _ _ => 0⟩, dpc := ⟨⟩, dpci := ⟨[]⟩, dpl := ⟨[]⟩,
          dpla := ⟨[], []⟩, dirname := none,
          tileset_file_map := fun _ => none,
          tileset_chunk_map := fun _ => none,
          xml := none, chunks := [EMPTY_IMAGE, [1, 2, 3]],
          palette := some (List.replicate 768 0), dpla__colors := [],
          dpla__durations_per_frame_for_colors := [],
          dma__original_chunk_mappings := [0] }).2 =
        some (.paletteMismatch ("b.png")) := by
  have h := c5_palette_mismatch
    ⟨fun fn => if fn = "b.png" then
        some (.img ⟨24, 24, "P", "RGB", List.replicate 768 1, fun _ _ => 0⟩)
      else none⟩
    "b.png"
    { dma := ⟨[0], fun _ _ => 0⟩, dpc := ⟨⟩, dpci := ⟨[]⟩, dpl := ⟨[]⟩,
      dpla := ⟨[], []⟩, dirname := none,
      tileset_file_map := fun _ => none,
      tileset_chunk_map := fun _ => none,
      xml := none, chunks := [EMPTY_IMAGE, [1, 2, 3]],
      palette := some (List.replicate 768 0), dpla__colors := [],
      dpla__durations_per_frame_for_colors := [],
      dma__original_chunk_mappings := [0] }
    (List.replicate 768 0)
    ⟨24, 24, "P", "RGB", List.replicate 768 1, fun _ _ => 0⟩
    rfl rfl rfl rfl (by rw [List.length_replicate])
    (fun hcontra => Nat.one_ne_zero (congrArg (fun l => l.getD 0 2) hcontra))
  exact h.1

/-! ## Pattern matching of special-mapping identifiers -/

theorem patternMatchNum_of_append (pat ds rest : List Char)
    (hne : ds ≠ []) (hdig : ∀ c ∈ ds, c.isDigit)
    (hstop : ∀ c ∈ rest.take 1, c.isDigit = false) :
    patternMatchNum pat (pat ++ (ds ++ rest)) = some (digitsToNat ds) := by
  have hpre : pat.isPrefixOf (pat ++ (ds ++ rest)) := by
    rw [ List.isPrefixOf_iff_prefix]
    exact List.prefix_append pat (ds ++ rest)
  have hdrop : (pat ++ (ds ++ rest)).drop pat.length = ds ++ rest := by
    simp
  have hrest : rest.takeWhile Char.isDigit = [] := by
    cases rest with
    | nil => rfl
    | cons r rs =>
      have hr : r.isDigit = false := hstop r (by simp)
      simp [List.takeWhile_cons, hr]
  have htw : (ds ++ rest).takeWhile Char.isDigit = ds := by
    rw [List.takeWhile_append_of_pos hdig, hrest, List.append_nil]
  unfold patternMatchNum
  rw [if_pos hpre, hdrop, htw]
  rw [if_neg (by simpa [List.isEmpty_iff] using hne)]

theorem patternMatchNum_none_of_ne_take (pat s : List Char)
    (h : s.take pat.length ≠ pat) :
    patternMatchNum pat s = none := by
  unfold patternMatchNum
  rw [if_neg]
  intro hpre
  rw [ List.isPrefixOf_iff_prefix] at hpre
  exact h (List.prefix_iff_eq_take.mp hpre).symm

/-- C7: a `<special-mapping>` whose identifier is exactly
`EOS_EXTRA_FLOOR1_n` (digits `n`) writes the resolved chunk index into the
FLOOR1 extra-slot table at index `n` without error (and likewise for the
FLOOR2 and WALL_OR_VOID patterns), while an identifier matching none of the
three patterns is accepted without error and leaves the state entirely
unchanged. -/
theorem c7_special_mapping_patterns (chunk : Nat) (mapping : XElem)
    (s : Session) (ident : String)
    (htag : mapping.tag = SPECIAL_MAPPING)
    (hattr : mapping.attr? SPECIAL_MAPPING__IDENTIFIER = some ident) :
    (∀ ds : List Char, ds ≠ [] → (∀ c ∈ ds, c.isDigit) →
      ident.data = floor1Pat ++ ds →
      (process_mapping chunk mapping s).2 = none ∧
        (process_mapping chunk mapping s).1.dma.extras .floor1 (digitsToNat ds) =
          chunk) ∧
    (∀ ds : List Char, ds ≠ [] → (∀ c ∈ ds, c.isDigit) →
      ident.data = floor2Pat ++ ds →
      (process_mapping chunk mapping s).2 = none ∧
        (process_mapping chunk mapping s).1.dma.extras .floor2 (digitsToNat ds) =
          chunk) ∧
    (∀ ds : List Char, ds ≠ [] → (∀ c ∈ ds, c.isDigit) →
      ident.data = wallOrVoidPat ++ ds →
      (process_mapping chunk mapping s).2 = none ∧
        (process_mapping chunk mapping s).1.dma.extras .wall_or_void
          (digitsToNat ds) = chunk) ∧
    (patternMatchNum floor1Pat ident.data = none →
      patternMatchNum floor2Pat ident.data = none →
      patternMatchNum wallOrVoidPat ident.data = none →
      process_mapping chunk mapping s = (s, none)) := by
  have htagM : mapping.tag ≠ MAPPING := by
    rw [htag]; decide
  have hbranch : process_mapping chunk mapping s =
      (process_special_mapping chunk ident s, none) := by
    unfold process_mapping
    rw [if_neg htagM, if_pos htag]
    have hv : validate_xml_attribs mapping [SPECIAL_MAPPING__IDENTIFIER] = none := by
      unfold validate_xml_attribs validate_xml_attribs
      rw [hattr]
      rfl
    rw [hv]
    simp [hattr]
  refine ⟨?_, ?_, ?_, ?_⟩
  · intro ds hne hdig hid
    have hm1 : patternMatchNum floor1Pat ident.data = some (digitsToNat ds) := by
      rw [hid, show floor1Pat ++ ds = floor1Pat ++ (ds ++ []) by simp]
      exact patternMatchNum_of_append _ _ _ hne hdig (by simp)
    rw [hbranch]
    refine ⟨rfl, ?_⟩
    unfold process_special_mapping
    rw [hm1]
    cases h2 : patternMatchNum floor2Pat ident.data with
    | none =>
      cases h3 : patternMatchNum wallOrVoidPat ident.data with
      | none => simp [Dma.set_extra]
      | some m => simp [Dma.set_extra]
    | some m =>
      cases h3 : patternMatchNum wallOrVoidPat ident.data with
      | none => simp [Dma.set_extra]
      | some m2 => simp [Dma.set_extra]
  · intro ds hne hdig hid
    have hm2 : patternMatchNum floor2Pat ident.data = some (digitsToNat ds) := by
      rw [hid, show floor2Pat ++ ds = floor2Pat ++ (ds ++ []) by simp]
      exact patternMatchNum_of_append _ _ _ hne hdig (by simp)
    rw [hbranch]
    refine ⟨rfl, ?_⟩
    unfold process_special_mapping
    rw [hm2]
    cases h1 : patternMatchNum floor1Pat ident.data with
    | none =>
      cases h3 : patternMatchNum wallOrVoidPat ident.data with
      | none => simp [Dma.set_extra]
      | some m => simp [Dma.set_extra]
    | some m =>
      cases h3 : patternMatchNum wallOrVoidPat ident.data with
      | none => simp [Dma.set_extra]
      | some m2 => simp [Dma.set_extra]
  · intro ds hne hdig hid
    have hm3 : patternMatchNum wallOrVoidPat ident.data = some (digitsToNat ds) := by
      rw [hid, show wallOrVoidPat ++ ds = wallOrVoidPat ++ (ds ++ []) by simp]
      exact patternMatchNum_of_append _ _ _ hne hdig (by simp)
    rw [hbranch]
    refine ⟨rfl, ?_⟩
    unfold process_special_mapping
    rw [hm3]
    cases h1 : patternMatchNum floor1Pat ident.data with
    | none =>
      cases h2 : patternMatchNum floor2Pat ident.data with
      | none => simp [Dma.set_extra]
      | some m => simp [Dma.set_extra]
    | some m =>
      cases h2 : patternMatchNum floor2Pat ident.data with
      | none => simp [Dma.set_extra]
      | some m2 => simp [Dma.set_extra]
  · intro h1 h2 h3
    rw [hbranch]
    unfold process_special_mapping
    rw [h1, h2, h3]

/-- Witness for C7: identifier `EOS_EXTRA_FLOOR1_3` assigns chunk 7 to
FLOOR1 slot 3 without error, and identifier `FOO_BAR` is accepted without
error and produces no state change at all. -/
theorem c7_special_mapping_patterns_witness :
    ((process_mapping 7
        (.mk SPECIAL_MAPPING [(SPECIAL_MAPPING__IDENTIFIER, "EOS_EXTRA_FLOOR1_3")] [] "")
        exSession).2 = none ∧
      (process_mapping 7
        (.mk SPECIAL_MAPPING [(SPECIAL_MAPPING__IDENTIFIER, "EOS_EXTRA_FLOOR1_3")] [] "")
        exSession).1.dma.extras .floor1 (digitsToNat ['3']) = 7) ∧
    process_mapping 7
        (.mk SPECIAL_MAPPING [(SPECIAL_MAPPING__IDENTIFIER, "FOO_BAR")] [] "")
        exSession = (exSession, none) := by
  constructor
  · exact (c7_special_mapping_patterns 7
      (.mk SPECIAL_MAPPING [(SPECIAL_MAPPING__IDENTIFIER, "EOS_EXTRA_FLOOR1_3")] [] "")
      exSession ("EOS_EXTRA_FLOOR1_3") rfl rfl).1 ['3'] (by decide) (by decide)
      (by decide)
  · exact (c7_special_mapping_patterns 7
      (.mk SPECIAL_MAPPING [(SPECIAL_MAPPING__IDENTIFIER, "FOO_BAR")] [] "")
      exSession ("FOO_BAR") rfl rfl).2.2.2 (by decide) (by decide) (by decide)

/-- C10: the identifier patterns are matched by unanchored prefix match: an
identifier that begins with one of the three patterns followed by a
(maximal) nonempty digit run performs the assignment to the slot numbered
by those leading digits, no matter what characters follow the digits. -/
theorem c10_special_mapping_trailing (chunk : Nat) (mapping : XElem)
    (s : Session) (ident : String)
    (htag : mapping.tag = SPECIAL_MAPPING)
    (hattr : mapping.attr? SPECIAL_MAPPING__IDENTIFIER = some ident) :
    (∀ ds rest : List Char, ds ≠ [] → (∀ c ∈ ds, c.isDigit) →
      (∀ c ∈ rest.take 1, c.isDigit = false) →
      ident.data = floor1Pat ++ (ds ++ rest) →
      (process_mapping chunk mapping s).2 = none ∧
        (process_mapping chunk mapping s).1.dma.extras .floor1 (digitsToNat ds) =
          chunk) ∧
    (∀ ds rest : List Char, ds ≠ [] → (∀ c ∈ ds, c.isDigit) →
      (∀ c ∈ rest.take 1, c.isDigit = false) →
      ident.data = floor2Pat ++ (ds ++ rest) →
      (process_mapping chunk mapping s).2 = none ∧
        (process_mapping chunk mapping s).1.dma.extras .floor2 (digitsToNat ds) =
          chunk) ∧
    (∀ ds rest : List Char, ds ≠ [] → (∀ c ∈ ds, c.isDigit) →
      (∀ c ∈ rest.take 1, c.isDigit = false) →
      ident.data = wallOrVoidPat ++ (ds ++ rest) →
      (process_mapping chunk mapping s).2 = none ∧
        (process_mapping chunk mapping s).1.dma.extras .wall_or_void
          (digitsToNat ds) = chunk) := by
  have htagM : mapping.tag ≠ MAPPING := by
    rw [htag]; decide
  have hbranch : process_mapping chunk mapping s =
      (process_special_mapping chunk ident s, none) := by
    unfold process_mapping
    rw [if_neg htagM, if_pos htag]
    have hv : validate_xml_attribs mapping [SPECIAL_MAPPING__IDENTIFIER] = none := by
      unfold validate_xml_attribs validate_xml_attribs
      rw [hattr]
      rfl
    rw [hv]
    simp [hattr]
  refine ⟨?_, ?_, ?_⟩
  · intro ds rest hne hdig hstop hid
    have hm1 : patternMatchNum floor1Pat ident.data = some (digitsToNat ds) := by
      rw [hid]
      exact patternMatchNum_of_append _ _ _ hne hdig hstop
    rw [hbranch]
    refine ⟨rfl, ?_⟩
    unfold process_special_mapping
    rw [hm1]
    cases h2 : patternMatchNum floor2Pat ident.data with
    | none =>
      cases h3 : patternMatchNum wallOrVoidPat ident.data with
      | none => simp [Dma.set_extra]
      | some m => simp [Dma.set_extra]
    | some m =>
      cases h3 : patternMatchNum wallOrVoidPat ident.data with
      | none => simp [Dma.set_extra]
      | some m2 => simp [Dma.set_extra]
  · intro ds rest hne hdig hstop hid
    have hm2 : patternMatchNum floor2Pat ident.data = some (digitsToNat ds) := by
      rw [hid]
      exact patternMatchNum_of_append _ _ _ hne hdig hstop
    rw [hbranch]
    refine ⟨rfl, ?_⟩
    unfold process_special_mapping
    rw [hm2]
    cases h1 : patternMatchNum floor1Pat ident.data with
    | none =>
      cases h3 : patternMatchNum wallOrVoidPat ident.data with
      | none => simp [Dma.set_extra]
      | some m => simp [Dma.set_extra]
    | some m =>
      cases h3 : patternMatchNum wallOrVoidPat ident.data with
      | none => simp [Dma.set_extra]
      | some m2 => simp [Dma.set_extra]
  · intro ds rest hne hdig hstop hid
    have hm3 : patternMatchNum wallOrVoidPat ident.data = some (digitsToNat ds) := by
      rw [hid]
      exact patternMatchNum_of_append _ _ _ hne hdig hstop
    rw [hbranch]
    refine ⟨rfl, ?_⟩
    unfold process_special_mapping
    rw [hm3]
    cases h1 : patternMatchNum floor1Pat ident.data with
    | none =>
      cases h2 : patternMatchNum floor2Pat ident.data with
      | none => simp [Dma.set_extra]
      | some m => simp [Dma.set_extra]
    | some m =>
      cases h2 : patternMatchNum floor2Pat ident.data with
      | none => simp [Dma.set_extra]
      | some m2 => simp [Dma.set_extra]

/-- Witness for C10: identifier `EOS_EXTRA_FLOOR1_3_UNUSED` assigns chunk 9
to FLOOR1 slot 3 despite the trailing characters. -/
theorem c10_special_mapping_trailing_witness :
    (process_mapping 9
        (.mk SPECIAL_MAPPING
          [(SPECIAL_MAPPING__IDENTIFIER, "EOS_EXTRA_FLOOR1_3_UNUSED")] [] "")
        exSession).2 = none ∧
      (process_mapping 9
        (.mk SPECIAL_MAPPING
          [(SPECIAL_MAPPING__IDENTIFIER, "EOS_EXTRA_FLOOR1_3_UNUSED")] [] "")
        exSession).1.dma.extras .floor1 (digitsToNat ['3']) = 9 :=
  (c10_special_mapping_trailing 9
      (.mk SPECIAL_MAPPING
        [(SPECIAL_MAPPING__IDENTIFIER, "EOS_EXTRA_FLOOR1_3_UNUSED")] [] "")
      exSession ("EOS_EXTRA_FLOOR1_3_UNUSED") rfl rfl).1 ['3'] "_UNUSED".data
    (by decide) (by decide) (by decide) (by decide)

/-! ## Lemmas about the per-rule target-table writes -/

theorem dmaIndex_inj (typ : DmaType) (var r r' : Nat)
    (h : dmaIndex typ r var = dmaIndex typ r' var) : r = r' := by
  unfold dmaIndex at h
  omega


theorem dmaSetAll_length (rules : List Nat) (typ : DmaType) (var ci : Nat)
    (d : Dma) :
    (dmaSetAll rules typ var ci d).chunk_mappings.length =
      d.chunk_mappings.length := by
  induction rules generalizing d with
  | nil => rfl
  | cons r rest ih =>
    unfold dmaSetAll at ih ⊢
    simpa [Dma.set] using ih (d.set typ r var ci)

theorem dmaSetAll_extras (rules : List Nat) (typ : DmaType) (var ci : Nat)
    (d : Dma) :
    (dmaSetAll rules typ var ci d).extras = d.extras := by
  induction rules generalizing d with
  | nil => rfl
  | cons r rest ih =>
    unfold dmaSetAll at ih ⊢
    simpa [Dma.set] using ih (d.set typ r var ci)

theorem dmaSetAll_get_other (rules : List Nat) (typ : DmaType) (var ci : Nat)
    (d : Dma) (ix : Nat) (hnot : ∀ r ∈ rules, ix ≠ dmaIndex typ r var) :
    (dmaSetAll rules typ var ci d).chunk_mappings[ix]? =
      d.chunk_mappings[ix]? := by
  induction rules generalizing d with
  | nil => rfl
  | cons r rest ih =>
    unfold dmaSetAll at ih ⊢
    rw [List.foldl_cons]
    rw [ih (d.set typ r var ci) (fun r2 h2 => hnot r2 (by simp [h2]))]
    exact List.getElem?_set_ne (Ne.symm (hnot r (by simp)))

theorem dmaSetAll_get (rules : List Nat) (typ : DmaType) (var ci : Nat)
    (d : Dma) (rule : Nat) (hr : rule ∈ rules)
    (hlt : dmaIndex typ rule var < d.chunk_mappings.length) :
    (dmaSetAll rules typ var ci d).chunk_mappings[dmaIndex typ rule var]? =
      some ci := by
  induction rules generalizing d with
  | nil => simp at hr
  | cons r0 rest ih =>
    unfold dmaSetAll at ih ⊢
    rw [List.foldl_cons]
    by_cases hmem : rule ∈ rest
    · exact ih (d.set typ r0 var ci) hmem (by simpa [Dma.set] using hlt)
    · have hr0 : rule = r0 := by
        cases hr with
        | head => rfl
        | tail _ h => exact absurd h hmem
      subst hr0
      have hother : ∀ r ∈ rest, dmaIndex typ rule var ≠ dmaIndex typ r var := by
        intro r hrr heq
        exact hmem (dmaIndex_inj typ var rule r heq ▸ hrr)
      rw [show rest.foldl (fun d2 r2 => d2.set typ r2 var ci) (d.set typ rule var ci) =
          dmaSetAll rest typ var ci (d.set typ rule var ci) from rfl]
      rw [dmaSetAll_get_other rest typ var ci _ _ hother]
      simp [Dma.set]
      exact List.getElem?_set_self hlt

/-! ## C3: empty-cell fallback to the previous variation -/

/-- C3: in a variation with index > 0, a grid cell whose cropped chunk is
pixel-identical to the all-zero empty sentinel inserts nothing into the
chunk pool, records for this cell exactly the chunk index the previous
variation's file recorded at the same (x, y), and writes that index into
the target table for this terrain and variation at every rule aliased to
this cell. -/
theorem c3_empty_cell_fallback (typ : DmaType) (bx byv w var_id i : Nat)
    (fn pfn : String) (tileset : ImgFile) (rules : List Nat) (s : Session)
    (pm m : Nat × Nat → Option Nat) (k : Nat)
    (hvar : var_id > 0)
    (hempty : cropData tileset (bx + i % w) (byv + i / w) = EMPTY_IMAGE)
    (hpm : s.tileset_chunk_map pfn = some pm)
    (hk : pm (bx + i % w, byv + i / w) = some k)
    (hm : s.tileset_chunk_map fn = some m) :
    (_import_tileset_cell typ bx byv w var_id fn (some pfn) tileset (i, rules) s).2 =
        none ∧
      (_import_tileset_cell typ bx byv w var_id fn (some pfn) tileset (i, rules) s).1.chunks =
        s.chunks ∧
      (∃ m2, (_import_tileset_cell typ bx byv w var_id fn (some pfn) tileset
          (i, rules) s).1.tileset_chunk_map fn = some m2 ∧
        m2 (bx + i % w, byv + i / w) = some k) ∧
      ∀ rule ∈ rules, dmaIndex typ rule var_id < s.dma.chunk_mappings.length →
        (_import_tileset_cell typ bx byv w var_id fn (some pfn) tileset
          (i, rules) s).1.dma.chunk_mappings[dmaIndex typ rule var_id]? = some k := by
  have hcell : _import_tileset_cell typ bx byv w var_id fn (some pfn) tileset
      (i, rules) s =
      ({ s with
          tileset_chunk_map :=
            fupd s.tileset_chunk_map fn (fupd m (bx + i % w, byv + i / w) k),
          dma := dmaSetAll rules typ var_id k s.dma }, none) := by
    unfold _import_tileset_cell
    simp only [hvar, hempty, and_true, if_pos, gt_iff_lt, ↓reduceIte, hpm, hk, hm]
    rfl
  rw [hcell]
  refine ⟨rfl, rfl, ⟨fupd m (bx + i % w, byv + i / w) k, by simp [fupd], by simp [fupd]⟩, ?_⟩
  intro rule hr hlt
  exact dmaSetAll_get rules typ var_id k s.dma rule hr hlt


set_option maxRecDepth 8192 in
/-- Witness for C3 at a concrete empty cell of variation 1. -/
theorem c3_empty_cell_fallback_witness :
    (_import_tileset_cell .wall 0 0 1 1 "cur.png" (some ("prev.png")) c3Img
        (0, [4]) c3Session).2 = none ∧
      (_import_tileset_cell .wall 0 0 1 1 "cur.png" (some ("prev.png")) c3Img
        (0, [4]) c3Session).1.chunks = c3Session.chunks ∧
      (∃ m2, (_import_tileset_cell .wall 0 0 1 1 "cur.png" (some ("prev.png"))
          c3Img (0, [4]) c3Session).1.tileset_chunk_map ("cur.png") = some m2 ∧
        m2 (0 + 0 % 1, 0 + 0 / 1) = some 5) ∧
      ∀ rule ∈ [4], dmaIndex .wall rule 1 < c3Session.dma.chunk_mappings.length →
        (_import_tileset_cell .wall 0 0 1 1 "cur.png" (some ("prev.png")) c3Img
          (0, [4]) c3Session).1.dma.chunk_mappings[dmaIndex .wall rule 1]? =
          some 5 :=
  c3_empty_cell_fallback .wall 0 0 1 1 0 "cur.png" "prev.png" c3Img [4]
    c3Session (fupd (fun _ => none) (0, 0) 5) (fun _ => none) 5
    (by decide) (by decide) rfl rfl rfl

/-! ## C8: the terrain-band size guard (code bug) -/



set_option maxRecDepth 16384 in
/-- C8 (refuted on the code — code bug): the size guard of
`_import_tileset` compares the image's pixel dimensions against cell
counts (`tileset.width < bx + w`), not against the band's pixel region
(`(bx + w) * CHUNK_DIM`). A 47×24-pixel sheet is too small to contain a
2-cell-wide, 1-cell-high band (which needs 48×24 pixels), yet the import
of that band proceeds without a SizeError: the guard passes and the crops
silently read zero-padded pixels. -/
theorem c8_size_guard_unit_bug :
    47 < (0 + 2) * CHUNK_DIM ∧
      (_import_tileset [[1], [2]] .wall 0 0 2 1 0 "a.png" none c8Session).2 =
        none := by
  constructor
  · decide
  · decide

/-! ## C6: animation parsing -/


theorem convert_hex_length (h : String) :
    (_convert_hex_str_color_to_tuple h).length = 3 := rfl

theorem frameSlotBytes_length (frames : List XElem) (j : Nat) :
    (frameSlotBytes frames j).length = 3 * frames.length := by
  induction frames with
  | nil => rfl
  | cons f rest ih =>
    unfold frameSlotBytes at ih ⊢
    simp only [List.map_cons, List.flatten_cons, List.length_append, ih,
      convert_hex_length, List.length_cons]
    ring

theorem accum_frame_colors_ok (cs : List XElem) (i0 : Nat)
    (colors : List (List Nat))
    (htags : ∀ c ∈ cs, c.tag = COLOR)
    (hbound : i0 + cs.length ≤ colors.length) :
    ∃ res, accum_frame_colors colors cs i0 = .ok res ∧
      res.length = colors.length ∧
      ∀ j, res[j]? = (colors[j]?).map (fun cj =>
        cj ++ (if i0 ≤ j ∧ j < i0 + cs.length then
          _convert_hex_str_color_to_tuple ((cs.getD (j - i0) nullElem).text)
        else [])) := by
  induction cs generalizing i0 colors with
  | nil =>
    refine ⟨colors, rfl, rfl, fun j => ?_⟩
    cases colors[j]? <;> simp
  | cons c rest ih =>
    have htc : c.tag = COLOR := htags c (by simp)
    have hval : validate_xml_tag c COLOR = none := by
      unfold validate_xml_tag
      rw [if_pos htc]
    have hi0 : i0 < colors.length := by
      simp at hbound
      omega
    obtain ⟨ci0, hci0⟩ : ∃ v, colors[i0]? = some v :=
      Option.isSome_iff_exists.mp (by simp [List.getElem?_eq_getElem hi0])
    set colors1 := colors.set i0
      (colors.getD i0 [] ++ _convert_hex_str_color_to_tuple c.text) with hc1
    obtain ⟨res, hres, hlen, hj⟩ := ih (i0 + 1) colors1
      (fun c2 h2 => htags c2 (by simp [h2]))
      (by simp [hc1]; simp at hbound; omega)
    refine ⟨res, ?_, by simpa [hc1] using hlen, ?_⟩
    · unfold accum_frame_colors
      rw [hval, hres]
    · intro j
      rw [hj j]
      by_cases hje : j = i0
      · subst hje
        have hset : colors1[j]? = some (ci0 ++ _convert_hex_str_color_to_tuple c.text) := by
          rw [hc1]
          rw [List.getElem?_set_self (by simpa using hi0)]
          simp [List.getD, hci0]
        rw [hset, hci0]
        have hc1cond : ¬(j + 1 ≤ j ∧ j < j + 1 + rest.length) := by omega
        have hgd : (c :: rest).getD (j - j) nullElem = c := by
          simp [Nat.sub_self]
        simp only [Option.map_some', Option.some.injEq, List.length_cons]
        rw [if_neg hc1cond,
          if_pos (show j ≤ j ∧ j < j + (rest.length + 1) from by omega), hgd]
        simp
      · have hset : colors1[j]? = colors[j]? := by
          rw [hc1]
          exact List.getElem?_set_ne (fun h => hje h.symm)
        rw [hset]
        cases hcj : colors[j]? with
        | none => rfl
        | some v =>
          simp only [Option.map_some', Option.some.injEq, List.length_cons]
          by_cases hcond : i0 ≤ j ∧ j < i0 + (rest.length + 1)
          · have hcond' : i0 + 1 ≤ j ∧ j < i0 + 1 + rest.length := by omega
            rw [if_pos hcond', if_pos hcond]
            have hd : (c :: rest).getD (j - i0) nullElem =
                rest.getD (j - (i0 + 1)) nullElem := by
              have : j - i0 = (j - (i0 + 1)) + 1 := by omega
              rw [this]
              rfl
            rw [hd]
          · have hcond' : ¬(i0 + 1 ≤ j ∧ j < i0 + 1 + rest.length) := by omega
            rw [if_neg hcond', if_neg hcond]

theorem accum_frames_ok (frames : List XElem) (colors : List (List Nat))
    (hlen : colors.length = 16)
    (hwf : ∀ f ∈ frames, f.tag = FRAME ∧ f.children.length = 16 ∧
      ∀ c ∈ f.children, c.tag = COLOR) :
    ∃ res, accum_frames colors frames = .ok res ∧ res.length = 16 ∧
      ∀ j, res[j]? = (colors[j]?).map (fun cj => cj ++ frameSlotBytes frames j) := by
  induction frames generalizing colors with
  | nil =>
    refine ⟨colors, rfl, hlen, fun j => ?_⟩
    cases colors[j]? <;> simp [frameSlotBytes]
  | cons f rest ih =>
    obtain ⟨htf, hcf, htc⟩ := hwf f (by simp)
    have hvf : validate_xml_tag f FRAME = none := by
      unfold validate_xml_tag
      rw [if_pos htf]
    obtain ⟨colors1, hc1, hlen1, hj1⟩ :=
      accum_frame_colors_ok f.children 0 colors htc (by omega)
    obtain ⟨res, hres, hlenr, hjr⟩ := ih colors1 (by omega)
      (fun g hg => hwf g (by simp [hg]))
    refine ⟨res, ?_, hlenr, ?_⟩
    · unfold accum_frames
      rw [hvf, if_neg (by rw [hcf]; trivial), hc1]
      exact hres
    · intro j
      rw [hjr j, hj1 j]
      cases hcj : colors[j]? with
      | none => rfl
      | some v =>
        have hjlt : j < colors.length := by
          by_contra hge
          rw [List.getElem?_eq_none (by omega)] at hcj
          exact Option.noConfusion hcj
        have hcond : 0 ≤ j ∧ j < 0 + f.children.length := by omega
        simp only [Option.map_some', if_pos hcond, Option.some.injEq]
        unfold frameSlotBytes
        simp only [List.map_cons, List.flatten_cons, Nat.sub_zero,
          List.append_assoc]

/-- Running prefix of well-formed frames before an offending frame. -/
theorem accum_frames_error (pre : List XElem) (f : XElem) (post : List XElem)
    (colors : List (List Nat)) (hlen : colors.length = 16)
    (hpre : ∀ g ∈ pre, g.tag = FRAME ∧ g.children.length = 16 ∧
      ∀ c ∈ g.children, c.tag = COLOR)
    (htf : f.tag = FRAME) (hbad : f.children.length ≠ 16) :
    accum_frames colors (pre ++ f :: post) = .error .frameColorCount := by
  induction pre generalizing colors with
  | nil =>
    rw [List.nil_append]
    unfold accum_frames
    rw [show validate_xml_tag f FRAME = none by
      unfold validate_xml_tag; rw [if_pos htf]]
    rw [if_pos hbad]
  | cons g rest ih =>
    obtain ⟨htg, hcg, htc⟩ := hpre g (by simp)
    have hvg : validate_xml_tag g FRAME = none := by
      unfold validate_xml_tag
      rw [if_pos htg]
    obtain ⟨colors1, hc1, hlen1, _⟩ :=
      accum_frame_colors_ok g.children 0 colors htc (by omega)
    rw [List.cons_append]
    unfold accum_frames
    rw [hvg, if_neg (by rw [hcg]; trivial), hc1]
    exact ih colors1 (by omega) (fun g2 h2 => hpre g2 (by simp [h2]))

/-- C6: (a) a well-formed animation element (every frame tagged `frame`
with exactly 16 `color` children) with a parseable duration yields 16
color-cycle sequences, slot `j` being the concatenation, in document order,
of one 3-byte RGB triple per frame — hence of length `3 × F` — together
with the parsed duration; (b) `_import_animation` concatenates the two
16-slot tracks into 32 sequences and broadcasts each track's duration over
its 16 slots; (c) a frame with a number of color children other than 16
makes `_prepare_import_animation` fail with the ValidationError
`frameColorCount`. -/
theorem c6_animation_parsing :
    (∀ (child : XElem) (dstr : String) (dur : Int),
      (∀ f ∈ child.children, f.tag = FRAME ∧ f.children.length = 16 ∧
        ∀ c ∈ f.children, c.tag = COLOR) →
      child.attr? ANIMATION__DURATION = some dstr →
      pyInt? dstr = some dur →
      ∃ colors, _prepare_import_animation child = .ok (colors, dur) ∧
        colors.length = 16 ∧
        ∀ j, j < 16 →
          colors[j]? = some (frameSlotBytes child.children j) ∧
            (frameSlotBytes child.children j).length = 3 * child.children.length) ∧
    (∀ (ani0 ani1 : List (List Nat)) (dur0 dur1 : Int) (s : Session),
      ani0.length = 16 → ani1.length = 16 →
      (_import_animation ani0 ani1 dur0 dur1 s).dpla__colors = ani0 ++ ani1 ∧
        (_import_animation ani0 ani1 dur0 dur1 s).dpla__colors.length = 32 ∧
        (_import_animation ani0 ani1 dur0 dur1 s).dpla__durations_per_frame_for_colors =
          List.replicate 16 dur0 ++ List.replicate 16 dur1) ∧
    (∀ (child : XElem) (pre : List XElem) (f : XElem) (post : List XElem),
      child.children = pre ++ f :: post →
      (∀ g ∈ pre, g.tag = FRAME ∧ g.children.length = 16 ∧
        ∀ c ∈ g.children, c.tag = COLOR) →
      f.tag = FRAME → f.children.length ≠ 16 →
      _prepare_import_animation child = .error .frameColorCount) := by
  refine ⟨?_, ?_, ?_⟩
  · intro child dstr dur hwf hattr hdur
    obtain ⟨colors, hacc, hlen, hj⟩ :=
      accum_frames_ok child.children (List.replicate 16 []) (by simp) hwf
    refine ⟨colors, ?_, hlen, ?_⟩
    · unfold _prepare_import_animation
      rw [hacc, hattr]
      simp [hdur]
    · intro j hj16
      have hrep : (List.replicate 16 ([] : List Nat))[j]? = some [] :=
        List.getElem?_replicate_of_lt hj16
      constructor
      · rw [hj j, hrep]
        simp
      · exact frameSlotBytes_length child.children j
  · intro ani0 ani1 dur0 dur1 s h0 h1
    refine ⟨rfl, ?_, rfl⟩
    simp [_import_animation, h0, h1]
  · intro child pre f post hchildren hpre htf hbad
    unfold _prepare_import_animation
    rw [hchildren, accum_frames_error pre f post _ (by simp) hpre htf hbad]

/-- Witness for C6: the concrete two-frame animation parses into 16 slots of
6 bytes each with duration 20; `_import_animation` concatenates two concrete
16-slot tracks and broadcasts the durations; the 15-color frame raises the
ValidationError. -/
theorem c6_animation_parsing_witness :
    (∃ colors, _prepare_import_animation c6Child = .ok (colors, 20) ∧
      colors.length = 16 ∧
      ∀ j, j < 16 →
        colors[j]? = some (frameSlotBytes c6Child.children j) ∧
          (frameSlotBytes c6Child.children j).length = 3 * c6Child.children.length) ∧
    ((_import_animation (List.replicate 16 [1, 2, 3]) (List.replicate 16 [4, 5, 6])
        20 30 exSession).dpla__colors =
        List.replicate 16 [1, 2, 3] ++ List.replicate 16 [4, 5, 6] ∧
      (_import_animation (List.replicate 16 [1, 2, 3]) (List.replicate 16 [4, 5, 6])
        20 30 exSession).dpla__colors.length = 32 ∧
      (_import_animation (List.replicate 16 [1, 2, 3]) (List.replicate 16 [4, 5, 6])
        20 30 exSession).dpla__durations_per_frame_for_colors =
        List.replicate 16 (20 : Int) ++ List.replicate 16 (30 : Int)) ∧
    _prepare_import_animation c6Bad = .error .frameColorCount :=
  ⟨c6_animation_parsing.1 c6Child ("20") 20 (by decide) rfl (by decide),
   c6_animation_parsing.2.1 (List.replicate 16 [1, 2, 3])
     (List.replicate 16 [4, 5, 6]) 20 30 exSession (by simp) (by simp),
   c6_animation_parsing.2.2 c6Bad []
     (.mk FRAME [] (List.replicate 15 (.mk COLOR [] [] "0a0b0c")) "") [] rfl
     (by simp) (by decide) (by decide)⟩

/-! ## Per-cell and per-fold structure of the rule-grid import (for C9) -/

theorem insert_chunk_get (c : List (List Nat)) (a : List Nat) :
    (_insert_chunk_or_reuse c a).1[(_insert_chunk_or_reuse c a).2]? = some a := by
  have h := insert_chunk_scan_self c a
  have h2 := chunkScan_getD _ a _ h
  simpa [List.get?_eq_getElem?] using h2

theorem cell_success_spec (typ : DmaType) (bx byv w var : Nat)
    (fn : String) (prev : Option String) (tileset : ImgFile)
    (i : Nat) (rules : List Nat) (s : Session)
    (hsucc : (_import_tileset_cell typ bx byv w var fn prev tileset (i, rules) s).2 =
      none) :
    ∃ ci m d,
      s.tileset_chunk_map fn = some m ∧
      (_import_tileset_cell typ bx byv w var fn prev tileset (i, rules) s).1.chunks =
        s.chunks ++ d ∧
      (_import_tileset_cell typ bx byv w var fn prev tileset (i, rules) s).1.tileset_chunk_map =
        fupd s.tileset_chunk_map fn (fupd m (bx + i % w, byv + i / w) ci) ∧
      (_import_tileset_cell typ bx byv w var fn prev tileset (i, rules) s).1.dma =
        dmaSetAll rules typ var ci s.dma ∧
      ((0 < var ∧ cropData tileset (bx + i % w) (byv + i / w) = EMPTY_IMAGE) ∨
        (s.chunks ++ d)[ci]? =
          some (cropData tileset (bx + i % w) (byv + i / w))) := by
  by_cases hcond : var > 0 ∧ cropData tileset (bx + i % w) (byv + i / w) = EMPTY_IMAGE
  · cases hprev : prev with
    | none =>
      exfalso
      revert hsucc
      unfold _import_tileset_cell
      simp [hprev, if_pos hcond]
    | some pfn =>
      cases hpm : s.tileset_chunk_map pfn with
      | none =>
        exfalso
        revert hsucc
        unfold _import_tileset_cell
        simp [hprev, hpm, if_pos hcond]
      | some pm =>
        cases hk : pm (bx + i % w, byv + i / w) with
        | none =>
          exfalso
          revert hsucc
          unfold _import_tileset_cell
          simp [hprev, hpm, hk, if_pos hcond]
        | some ci =>
          cases hm : s.tileset_chunk_map fn with
          | none =>
            exfalso
            revert hsucc
            unfold _import_tileset_cell
            simp [hprev, hpm, hk, hm, if_pos hcond]
          | some m =>
            refine ⟨ci, m, [], rfl, ?_, ?_, ?_, Or.inl ⟨hcond.1, hcond.2⟩⟩ <;>
              · unfold _import_tileset_cell
                simp [hprev, hpm, hk, hm, if_pos hcond, dmaSetAll]
  · cases hm : s.tileset_chunk_map fn with
    | none =>
      exfalso
      revert hsucc
      unfold _import_tileset_cell
      simp [hm, if_neg hcond]
    | some m =>
      obtain ⟨d, hd⟩ := insert_chunk_extends s.chunks
        (cropData tileset (bx + i % w) (byv + i / w))
      refine ⟨(_insert_chunk_or_reuse s.chunks
          (cropData tileset (bx + i % w) (byv + i / w))).2, m, d, rfl, ?_, ?_, ?_,
        Or.inr ?_⟩
      · unfold _import_tileset_cell
        simp [hm, if_neg hcond, hd]
      · unfold _import_tileset_cell
        simp [hm, if_neg hcond]
      · unfold _import_tileset_cell
        simp [hm, if_neg hcond, dmaSetAll]
      · rw [← hd]
        exact insert_chunk_get s.chunks (cropData tileset (bx + i % w) (byv + i / w))

theorem cellPos_inj (w bx byv i j : Nat)
    (h : (bx + i % w, byv + i / w) = (bx + j % w, byv + j / w)) : i = j := by
  rw [Prod.mk.injEq] at h
  have h1 : i % w = j % w := by omega
  have h2 : i / w = j / w := by omega
  have hi := Nat.div_add_mod i w
  have hj := Nat.div_add_mod j w
  have : w * (i / w) = w * (j / w) := by rw [h2]
  omega

theorem mem_enumFrom_spec {α : Type} (l : List α) (n : Nat) (p : Nat × α)
    (hp : p ∈ l.enumFrom n) :
    ∃ jj, ∃ hjj : jj < l.length, p.1 = n + jj ∧ p.2 = l.get ⟨jj, hjj⟩ := by
  induction l generalizing n with
  | nil => simp [List.enumFrom] at hp
  | cons a rest ih =>
    rw [List.enumFrom_cons] at hp
    cases hp with
    | head => exact ⟨0, by simp, by simp, by simp⟩
    | tail _ htail =>
      obtain ⟨jj, hjj, h1, h2⟩ := ih (n + 1) htail
      exact ⟨jj + 1, by simpa using hjj, by omega, by simpa using h2⟩

theorem stageFold_nil {σ α : Type} (f : α → σ → σ × Option DtefError) (s : σ) :
    stageFold f [] s = (s, none) := rfl

theorem stageFold_cons {σ α : Type} (f : α → σ → σ × Option DtefError) (a : α)
    (l : List α) (s : σ) :
    stageFold f (a :: l) s =
      match f a s with
      | (s1, none) => stageFold f l s1
      | e => e := rfl

theorem cells_fold_preserve (typ : DmaType) (bx byv w var : Nat)
    (fn : String) (prev : Option String) (tileset : ImgFile)
    (l : List (Nat × List Nat)) (s : Session)
    (hrun : (stageFold (_import_tileset_cell typ bx byv w var fn prev tileset)
      l s).2 = none) :
    (∃ d, (stageFold (_import_tileset_cell typ bx byv w var fn prev tileset)
        l s).1.chunks = s.chunks ++ d) ∧
      (∀ a b v m, (∀ p ∈ l, (bx + p.1 % w, byv + p.1 / w) ≠ (a, b)) →
        s.tileset_chunk_map fn = some m → m (a, b) = some v →
        ∃ m', (stageFold (_import_tileset_cell typ bx byv w var fn prev tileset)
            l s).1.tileset_chunk_map fn = some m' ∧ m' (a, b) = some v) ∧
      (∀ ix v, (∀ p ∈ l, ∀ r ∈ p.2, ix ≠ dmaIndex typ r var) →
        s.dma.chunk_mappings[ix]? = some v →
        (stageFold (_import_tileset_cell typ bx byv w var fn prev tileset)
          l s).1.dma.chunk_mappings[ix]? = some v) ∧
      (stageFold (_import_tileset_cell typ bx byv w var fn prev tileset)
        l s).1.dma.chunk_mappings.length = s.dma.chunk_mappings.length := by
  induction l generalizing s with
  | nil =>
    exact ⟨⟨[], by simp [stageFold]⟩,
      fun a b v m _ hm hv => ⟨m, by simpa [stageFold] using hm, hv⟩,
      fun ix v _ hx => by simpa [stageFold] using hx,
      by simp [stageFold]⟩
  | cons p rest ih =>
    cases hstep : _import_tileset_cell typ bx byv w var fn prev tileset p s with
    | mk s1 o =>
      cases o with
      | some err =>
        exfalso
        rw [stageFold_cons, hstep] at hrun
        exact Option.noConfusion hrun
      | none =>
        have hfold : stageFold (_import_tileset_cell typ bx byv w var fn prev
            tileset) (p :: rest) s =
            stageFold (_import_tileset_cell typ bx byv w var fn prev tileset)
              rest s1 := by
          rw [stageFold_cons, hstep]
        have hrun1 : (stageFold (_import_tileset_cell typ bx byv w var fn prev
            tileset) rest s1).2 = none := by
          rw [← hfold]
          exact hrun
        obtain ⟨ci, m0, d0, hm0, hchunks, hmap, hdma, _⟩ :=
          cell_success_spec typ bx byv w var fn prev tileset p.1 p.2 s
            (by rw [show ((p.1, p.2) : Nat × List Nat) = p from rfl, hstep])
        have hstep1 : (_import_tileset_cell typ bx byv w var fn prev tileset
            (p.1, p.2) s).1 = s1 := by
          rw [show ((p.1, p.2) : Nat × List Nat) = p from rfl, hstep]
        rw [hstep1] at hchunks hmap hdma
        obtain ⟨ihc, ihm, ihd, ihl⟩ := ih s1 hrun1
        rw [hfold]
        refine ⟨?_, ?_, ?_, ?_⟩
        · obtain ⟨d1, hd1⟩ := ihc
          exact ⟨d0 ++ d1, by rw [hd1, hchunks, List.append_assoc]⟩
        · intro a b v m hne hm hv
          have hmm : m0 = m := by
            rw [hm0] at hm
            exact Option.some.inj hm
          subst hmm
          refine ihm a b v (fupd m0 (bx + p.1 % w, byv + p.1 / w) ci)
            (fun q hq => hne q (by simp [hq])) ?_ ?_
          · rw [hmap]
            simp [fupd]
          · unfold fupd
            rw [if_neg (Ne.symm (hne p (by simp)))]
            exact hv
        · intro ix v hne hx
          refine ihd ix v (fun q hq => hne q (by simp [hq])) ?_
          rw [hdma]
          rw [dmaSetAll_get_other p.2 typ var ci s.dma ix (hne p (by simp))]
          exact hx
        · rw [ihl, hdma, dmaSetAll_length]

theorem cells_fold_spec (typ : DmaType) (bx byv w var : Nat) (fn : String)
    (prev : Option String) (tileset : ImgFile)
    (rm : List (List Nat)) (k : Nat) (s : Session)
    (hrun : (stageFold (_import_tileset_cell typ bx byv w var fn prev tileset)
      (rm.enumFrom k) s).2 = none)
    (i : Nat) (hi : i < rm.length) :
    ∃ ci m2,
      (stageFold (_import_tileset_cell typ bx byv w var fn prev tileset)
        (rm.enumFrom k) s).1.tileset_chunk_map fn = some m2 ∧
      m2 (bx + (k + i) % w, byv + (k + i) / w) = some ci ∧
      (∀ rule, rule ∈ rm.get ⟨i, hi⟩ →
        (∀ j (hj : j < rm.length), i < j → rule ∉ rm.get ⟨j, hj⟩) →
        dmaIndex typ rule var < s.dma.chunk_mappings.length →
        (stageFold (_import_tileset_cell typ bx byv w var fn prev tileset)
          (rm.enumFrom k) s).1.dma.chunk_mappings[dmaIndex typ rule var]? =
          some ci) ∧
      ((0 < var ∧ cropData tileset (bx + (k + i) % w) (byv + (k + i) / w) =
          EMPTY_IMAGE) ∨
        (stageFold (_import_tileset_cell typ bx byv w var fn prev tileset)
          (rm.enumFrom k) s).1.chunks[ci]? =
          some (cropData tileset (bx + (k + i) % w) (byv + (k + i) / w))) := by
  induction rm generalizing k s i with
  | nil => exact absurd hi (by simp)
  | cons rules rest ih =>
    rw [List.enumFrom_cons] at hrun ⊢
    cases hstep : _import_tileset_cell typ bx byv w var fn prev tileset
        (k, rules) s with
    | mk s1 o =>
      cases o with
      | some err =>
        exfalso
        rw [stageFold_cons, hstep] at hrun
        exact Option.noConfusion hrun
      | none =>
        have hfold : stageFold (_import_tileset_cell typ bx byv w var fn prev
            tileset) ((k, rules) :: rest.enumFrom (k + 1)) s =
            stageFold (_import_tileset_cell typ bx byv w var fn prev tileset)
              (rest.enumFrom (k + 1)) s1 := by
          rw [stageFold_cons, hstep]
        have hrun1 : (stageFold (_import_tileset_cell typ bx byv w var fn prev
            tileset) (rest.enumFrom (k + 1)) s1).2 = none := by
          rw [← hfold]
          exact hrun
        obtain ⟨ci, m0, d0, hm0, hchunks, hmap, hdma, hcrop⟩ :=
          cell_success_spec typ bx byv w var fn prev tileset k rules s
            (by rw [hstep])
        rw [show (_import_tileset_cell typ bx byv w var fn prev tileset
            (k, rules) s).1 = s1 from by rw [hstep]] at hchunks hmap hdma
        cases i with
        | zero =>
          obtain ⟨⟨d1, hd1⟩, ihm, ihd, _⟩ := cells_fold_preserve typ bx byv w
            var fn prev tileset (rest.enumFrom (k + 1)) s1 hrun1
          have hkey : ∀ p ∈ rest.enumFrom (k + 1),
              (bx + p.1 % w, byv + p.1 / w) ≠
                (bx + k % w, byv + k / w) := by
            intro p hp heq
            obtain ⟨jj, hjj, hp1, _⟩ := mem_enumFrom_spec rest (k + 1) p hp
            have := cellPos_inj w bx byv p.1 k heq
            omega
          obtain ⟨m2, hm2, hv2⟩ := ihm (bx + k % w) (byv + k / w) ci
            (fupd m0 (bx + k % w, byv + k / w) ci) hkey
            (by rw [hmap]; simp [fupd]) (by simp [fupd])
          rw [hfold]
          refine ⟨ci, m2, hm2, by simpa using hv2, ?_, ?_⟩
          · intro rule hrule hlater hlt
            have hs1 : s1.dma.chunk_mappings[dmaIndex typ rule var]? = some ci := by
              rw [hdma]
              exact dmaSetAll_get rules typ var ci s.dma rule hrule hlt
            have hne : ∀ p ∈ rest.enumFrom (k + 1), ∀ r ∈ p.2,
                dmaIndex typ rule var ≠ dmaIndex typ r var := by
              intro p hp r hr heq
              obtain ⟨jj, hjj, hp1, hp2⟩ := mem_enumFrom_spec rest (k + 1) p hp
              have hrr : r = rule := (dmaIndex_inj typ var rule r heq).symm
              subst hrr
              have hmem : r ∈ (rules :: rest).get ⟨jj + 1, by simpa using hjj⟩ := by
                rw [hp2] at hr
                simpa using hr
              exact hlater (jj + 1) (by simpa using hjj) (by omega) hmem
            have := ihd (dmaIndex typ rule var) ci hne hs1
            simpa using this
          · cases hcrop with
            | inl hl => exact Or.inl (by simpa using hl)
            | inr hr =>
              refine Or.inr ?_
              rw [hd1]
              have hlt : ci < s1.chunks.length := by
                rw [hchunks]
                by_contra hge
                rw [List.getElem?_eq_none (by omega)] at hr
                exact Option.noConfusion hr
              rw [List.getElem?_append_left hlt, hchunks]
              simpa using hr
        | succ i' =>
          have hi' : i' < rest.length := by simpa using hi
          obtain ⟨ci, m2, h1, h2, h3, h4⟩ := ih (k + 1) s1 hrun1 i' hi'
          rw [hfold]
          have hidx : k + 1 + i' = k + (i' + 1) := by omega
          rw [hidx] at h2 h4
          refine ⟨ci, m2, h1, h2, ?_, h4⟩
          intro rule hrule hlater hlt
          refine h3 rule (by simpa using hrule) ?_ ?_
          · intro j hj hgt hmem
            exact hlater (j + 1) (by simpa using hj) (by omega)
              (by simpa using hmem)
          · have : s1.dma.chunk_mappings.length = s.dma.chunk_mappings.length := by
              rw [hdma, dmaSetAll_length]
            omega

/-- C9: in a successful band import, rule-table entry `i` is sourced from
the chunk cropped at grid cell `(bx + i mod w, by + i div w)` — the crop
(when it is not the empty-sentinel fallback of a variation > 0) is the pool
entry at the resulting index — the index is recorded in the file's position
cache at that cell, and it is written into the target table at this terrain
and variation for every raw rule aliased to entry `i` (stated for rules not
re-aliased by a later entry, which would overwrite the slot in iteration
order). -/
theorem c9_rule_grid_mapping (rm : List (List Nat)) (typ : DmaType)
    (bx byv w h var : Nat) (fn : String) (prev : Option String) (s : Session)
    (tileset : ImgFile)
    (hts : s.tileset_file_map fn = some tileset)
    (hrun : (_import_tileset rm typ bx byv w h var fn prev s).2 = none)
    (i : Nat) (hi : i < rm.length) :
    ∃ ci m2,
      (_import_tileset rm typ bx byv w h var fn prev s).1.tileset_chunk_map fn =
        some m2 ∧
      m2 (bx + i % w, byv + i / w) = some ci ∧
      (∀ rule, rule ∈ rm.get ⟨i, hi⟩ →
        (∀ j (hj : j < rm.length), i < j → rule ∉ rm.get ⟨j, hj⟩) →
        dmaIndex typ rule var < s.dma.chunk_mappings.length →
        (_import_tileset rm typ bx byv w h var fn prev s).1.dma.chunk_mappings[dmaIndex typ rule var]? =
          some ci) ∧
      ((0 < var ∧ cropData tileset (bx + i % w) (byv + i / w) = EMPTY_IMAGE) ∨
        (_import_tileset rm typ bx byv w h var fn prev s).1.chunks[ci]? =
          some (cropData tileset (bx + i % w) (byv + i / w))) := by
  cases hcm : s.tileset_chunk_map fn with
  | none =>
    exfalso
    revert hrun
    unfold _import_tileset
    rw [hts, hcm]
    simp
  | some m0 =>
    by_cases hsize : tileset.height < byv + h ∨ tileset.width < bx + w
    · exfalso
      revert hrun
      unfold _import_tileset
      rw [hts, hcm]
      simp [hsize]
    · have heq : _import_tileset rm typ bx byv w h var fn prev s =
          stageFold (_import_tileset_cell typ bx byv w var fn prev tileset)
            (rm.enumFrom 0) s := by
        unfold _import_tileset
        rw [hts, hcm]
        simp [hsize]
        rfl
      rw [heq] at hrun ⊢
      obtain ⟨ci, m2, h1, h2, h3, h4⟩ :=
        cells_fold_spec typ bx byv w var fn prev tileset rm 0 s hrun i hi
      rw [Nat.zero_add] at h2 h4
      exact ⟨ci, m2, h1, h2, h3, h4⟩



set_option maxRecDepth 32768 in
/-- Witness for C9 at a concrete 2-entry rule table over a 2×1-cell band. -/
theorem c9_rule_grid_mapping_witness :
    ∃ ci m2,
      (_import_tileset [[1], [2]] .wall 0 0 2 1 0 "a.png" none c9Session).1.tileset_chunk_map ("a.png") =
        some m2 ∧
      m2 (0 + 0 % 2, 0 + 0 / 2) = some ci ∧
      (∀ rule, rule ∈ ([[1], [2]] : List (List Nat)).get ⟨0, by decide⟩ →
        (∀ j (hj : j < ([[1], [2]] : List (List Nat)).length), 0 < j →
          rule ∉ ([[1], [2]] : List (List Nat)).get ⟨j, hj⟩) →
        dmaIndex .wall rule 0 < c9Session.dma.chunk_mappings.length →
        (_import_tileset [[1], [2]] .wall 0 0 2 1 0 "a.png" none c9Session).1.dma.chunk_mappings[dmaIndex .wall rule 0]? =
          some ci) ∧
      ((0 < 0 ∧ cropData c9Img (0 + 0 % 2) (0 + 0 / 2) = EMPTY_IMAGE) ∨
        (_import_tileset [[1], [2]] .wall 0 0 2 1 0 "a.png" none c9Session).1.chunks[ci]? =
          some (cropData c9Img (0 + 0 % 2) (0 + 0 / 2))) :=
  c9_rule_grid_mapping [[1], [2]] .wall 0 0 2 1 0 "a.png" none c9Session c9Img
    rfl (by decide) 0 (by decide)

/-! ## C4: determinism and self-reset of `do_import` -/

/-- C4: `do_import` is deterministic and self-resetting: two sessions that
agree on the five target models (but may carry arbitrary leftover working
state — chunk pool, palette, caches, parsed XML — e.g. from an earlier
import) produce identical results on the same inputs, in particular
byte-identical chunk pools and byte-identical neighbor-mapping tables, and
they succeed or fail identically. -/
theorem c4_deterministic_reset (cfg : DtefConfig) (pkg : Package)
    (dirname fn_xml fn_var0 fn_var1 fn_var2 : String) (st1 st2 : Session)
    (hdma : st1.dma = st2.dma) (hdpc : st1.dpc = st2.dpc)
    (hdpci : st1.dpci = st2.dpci) (hdpl : st1.dpl = st2.dpl)
    (hdpla : st1.dpla = st2.dpla) :
    do_import cfg pkg dirname fn_xml fn_var0 fn_var1 fn_var2 st1 =
      do_import cfg pkg dirname fn_xml fn_var0 fn_var1 fn_var2 st2 := by
  have hreset : reset_state st1 dirname = reset_state st2 dirname := by
    unfold reset_state
    rw [hdma, hdpc, hdpci, hdpl, hdpla]
  unfold do_import
  rw [hreset]

/-- Witness for C4: two sessions sharing the target models but with
different leftover chunk pools and palettes give identical import
results. -/
theorem c4_deterministic_reset_witness :
    do_import ⟨[[1], [2]], 2, 1⟩ ⟨fun _ => none⟩ "d" "x.xml" "a.png" "b.png"
        "c.png" exSession =
      do_import ⟨[[1], [2]], 2, 1⟩ ⟨fun _ => none⟩ "d" "x.xml" "a.png" "b.png"
        "c.png"
        { exSession with
          chunks := [[1, 2], [3]],
          palette := some [7],
          dpla__colors := [[9]],
          dirname := some ("leftover") } :=
  c4_deterministic_reset ⟨[[1], [2]], 2, 1⟩ ⟨fun _ => none⟩ "d" "x.xml"
    "a.png" "b.png" "c.png" exSession
    { exSession with
      chunks := [[1, 2], [3]],
      palette := some [7],
      dpla__colors := [[9]],
      dirname := some ("leftover") }
    rfl rfl rfl rfl rfl

/-! ## C1: the rollback snapshot is never modified between reset and
rollback -/

theorem stageFold_proj_pres {σ α : Type} {β : Type} (g : σ → β)
    (f : α → σ → σ × Option DtefError)
    (hf : ∀ a s, g ((f a s).1) = g s) :
    ∀ (l : List α) (s : σ), g ((stageFold f l s).1) = g s := by
  intro l
  induction l with
  | nil => intro s; rfl
  | cons a rest ih =>
    intro s
    rw [stageFold_cons]
    cases hstep : f a s with
    | mk s1 o =>
      cases o with
      | none =>
        show g ((stageFold f rest s1).1) = g s
        rw [ih s1]
        have h2 := hf a s
        rw [hstep] at h2
        exact h2
      | some e =>
        show g s1 = g s
        have h2 := hf a s
        rw [hstep] at h2
        exact h2

theorem andThenS_orig {β : Type} (g : Session → β) (r : StageResult)
    (f : Session → StageResult) (hf : ∀ s, g ((f s).1) = g s) :
    g ((andThenS r f).1) = g r.1 := by
  cases r with
  | mk s o =>
    cases o with
    | none => exact hf s
    | some e => rfl

theorem assert_file_exists_orig (pkg : Package) (fn : String) (s : Session) :
    ((_assert_file_exists pkg fn s).1).dma__original_chunk_mappings =
      s.dma__original_chunk_mappings := by
  unfold _assert_file_exists
  cases pkg.files fn <;> rfl

theorem open_tileset_orig (pkg : Package) (fn : String) (s : Session) :
    ((_open_tileset pkg fn s).1).dma__original_chunk_mappings =
      s.dma__original_chunk_mappings := by
  unfold _open_tileset
  cases hf : pkg.files fn with
  | none => rfl
  | some df =>
    cases df with
    | xml x => rfl
    | img pil =>
      dsimp only
      split
      · rfl
      · split
        · rfl
        · split
          · rfl
          · split <;> rfl

theorem parse_xml_orig (pkg : Package) (fn_xml : String) (s : Session) :
    ((parse_and_validate_xml pkg fn_xml s).1).dma__original_chunk_mappings =
      s.dma__original_chunk_mappings := by
  unfold parse_and_validate_xml
  cases hf : pkg.files fn_xml with
  | none => rfl
  | some df =>
    cases df with
    | img i => rfl
    | xml x =>
      dsimp only
      split
      · rfl
      · split
        · rfl
        · split
          · rfl
          · split <;> rfl

theorem cell_orig (typ : DmaType) (bx byv w var : Nat) (fn : String)
    (prev : Option String) (tileset : ImgFile) (e : Nat × List Nat)
    (s : Session) :
    ((_import_tileset_cell typ bx byv w var fn prev tileset e s).1).dma__original_chunk_mappings =
      s.dma__original_chunk_mappings := by
  by_cases hcond : var > 0 ∧ cropData tileset (bx + e.1 % w) (byv + e.1 / w) =
      EMPTY_IMAGE
  case pos =>
    cases hprev : prev with
    | none =>
      unfold _import_tileset_cell
      simp [hprev, hcond]
    | some pfn =>
      cases hpm : s.tileset_chunk_map pfn with
      | none =>
        unfold _import_tileset_cell
        simp [hprev, hpm, hcond]
      | some pm =>
        cases hk : pm (bx + e.1 % w, byv + e.1 / w) with
        | none =>
          unfold _import_tileset_cell
          simp [hprev, hpm, hk, hcond]
        | some ci =>
          cases hm : s.tileset_chunk_map fn with
          | none =>
            unfold _import_tileset_cell
            simp [hprev, hpm, hk, hm, hcond]
          | some m =>
            unfold _import_tileset_cell
            simp [hprev, hpm, hk, hm, hcond]
  case neg =>
    cases hm : s.tileset_chunk_map fn with
    | none =>
      unfold _import_tileset_cell
      simp [hm, hcond]
    | some m =>
      unfold _import_tileset_cell
      simp [hm, hcond]

theorem import_tileset_orig (rm : List (List Nat)) (typ : DmaType)
    (bx byv w h var : Nat) (fn : String) (prev : Option String) (s : Session) :
    ((_import_tileset rm typ bx byv w h var fn prev s).1).dma__original_chunk_mappings =
      s.dma__original_chunk_mappings := by
  unfold _import_tileset
  split
  · split
    · rfl
    · exact stageFold_proj_pres (fun s2 => s2.dma__original_chunk_mappings) _
        (fun a s2 => cell_orig typ bx byv w var fn prev _ a s2) rm.enum s
  · rfl

theorem import_variation_orig (cfg : DtefConfig) (ts : List String)
    (e : Nat × String) (s : Session) :
    ((import_variation cfg ts e s).1).dma__original_chunk_mappings =
      s.dma__original_chunk_mappings := by
  unfold import_variation
  rw [andThenS_orig (fun s2 => s2.dma__original_chunk_mappings)]
  · exact import_tileset_orig _ _ _ _ _ _ _ _ _ _
  · intro s1
    rw [andThenS_orig (fun s2 => s2.dma__original_chunk_mappings)]
    · exact import_tileset_orig _ _ _ _ _ _ _ _ _ _
    · intro s2
      exact import_tileset_orig _ _ _ _ _ _ _ _ _ _

theorem process_special_orig (chunk : Nat) (ident : String) (s : Session) :
    (process_special_mapping chunk ident s).dma__original_chunk_mappings =
      s.dma__original_chunk_mappings := by
  unfold process_special_mapping
  split <;> split <;> split <;> rfl

theorem process_mapping_orig (chunk : Nat) (mapping : XElem) (s : Session) :
    ((process_mapping chunk mapping s).1).dma__original_chunk_mappings =
      s.dma__original_chunk_mappings := by
  unfold process_mapping
  dsimp only
  repeat' split
  all_goals first
    | rfl
    | exact process_special_orig _ _ _

theorem grid_cell_orig (fn : String) (tileset : ImgFile) (p : Nat × Nat)
    (s : Session) :
    ((_read_additional_grid_cell fn tileset p s).1).dma__original_chunk_mappings =
      s.dma__original_chunk_mappings := by
  unfold _read_additional_grid_cell
  dsimp only
  split <;> rfl

theorem read_additional_orig (pkg : Package) (fn : String) (x y : Int)
    (dirname : String) (s : Session) :
    ((_read_additional_chunk_idx pkg fn x y dirname s).1).dma__original_chunk_mappings =
      s.dma__original_chunk_mappings := by
  unfold _read_additional_chunk_idx
  have hload : ∀ r : StageResult,
      (r.1).dma__original_chunk_mappings = s.dma__original_chunk_mappings →
      ((match r with
        | (s1, some err) => (s1, (.error err : Except DtefError Nat))
        | (s1, none) =>
          if x < 0 ∨ y < 0 then (s1, .error .keyError)
          else
            match s1.tileset_chunk_map fn with
            | none => (s1, .error .keyError)
            | some m =>
              match m (x.toNat, y.toNat) with
              | none => (s1, .error .keyError)
              | some ci => (s1, .ok ci)).1).dma__original_chunk_mappings =
        s.dma__original_chunk_mappings := by
    intro r hr
    cases r with
    | mk s1 o =>
      cases o with
      | some err => exact hr
      | none =>
        dsimp only
        split
        · exact hr
        · split
          · exact hr
          · split <;> exact hr
  apply hload
  split
  · rfl
  · rw [andThenS_orig (fun s2 => s2.dma__original_chunk_mappings)]
    · exact open_tileset_orig _ _ _
    · intro s1
      split
      · rfl
      · exact stageFold_proj_pres (fun s2 => s2.dma__original_chunk_mappings) _
          (fun a s2 => grid_cell_orig fn _ a s2) _ s1

theorem import_additional_tile_orig (pkg : Package) (dirname : String)
    (tile : XElem) (s : Session) :
    ((_import_additional_tile pkg dirname tile s).1).dma__original_chunk_mappings =
      s.dma__original_chunk_mappings := by
  unfold _import_additional_tile
  dsimp only
  split
  · rfl
  · split
    · rfl
    · split
      · rfl
      · rename_i xv heqx
        split
        · rfl
        · rename_i yv heqy
          split
          · rename_i s1 err heq
            have h2 := read_additional_orig pkg
              ((tile.attr? TILE__FILE).getD ("")) xv yv dirname s
            rw [heq] at h2
            exact h2
          · rename_i s1 chunk heq
            have h2 := read_additional_orig pkg
              ((tile.attr? TILE__FILE).getD ("")) xv yv dirname s
            rw [heq] at h2
            rw [stageFold_proj_pres (fun s2 => s2.dma__original_chunk_mappings) _
              (fun a s2 => process_mapping_orig chunk a s2) tile.children s1]
            exact h2

theorem import_additional_tiles_orig (pkg : Package) (dirname : String)
    (xml : XElem) (s : Session) :
    ((_import_additional_tiles pkg dirname xml s).1).dma__original_chunk_mappings =
      s.dma__original_chunk_mappings := by
  unfold _import_additional_tiles
  exact stageFold_proj_pres (fun s2 => s2.dma__original_chunk_mappings) _
    (fun a s2 => import_additional_tile_orig pkg dirname a s2) xml.children s

theorem import_child_orig (pkg : Package) (dirname : String) (child : XElem)
    (sa : Session × AniAcc) :
    ((import_child pkg dirname child sa).1).1.dma__original_chunk_mappings =
      sa.1.dma__original_chunk_mappings := by
  unfold import_child
  dsimp only
  split
  · split
    · rfl
    · split
      · split <;> rfl
      · split
        · split <;> rfl
        · rfl
  · split
    · split
      next s1 heq =>
        have h2 := import_additional_tiles_orig pkg dirname child sa.1
        rw [heq] at h2
        exact h2
      next s1 err heq =>
        have h2 := import_additional_tiles_orig pkg dirname child sa.1
        rw [heq] at h2
        exact h2
    · rfl

theorem import_children_phase_orig (pkg : Package) (dirname : String)
    (s : Session) :
    ((import_children_phase pkg dirname s).1).dma__original_chunk_mappings =
      s.dma__original_chunk_mappings := by
  unfold import_children_phase
  dsimp only
  split
  · rfl
  · rename_i xelem hxml
    split
    · rename_i s1 a heq
      have h2 := stageFold_proj_pres
        (fun sa : Session × AniAcc => sa.1.dma__original_chunk_mappings)
        (import_child pkg dirname)
        (fun a2 sa => import_child_orig pkg dirname a2 sa) xelem.children
        (s, { ani0 := List.replicate 16 [], ani1 := List.replicate 16 [],
              dur0 := 0, dur1 := 0 })
      rw [heq] at h2
      exact h2
    · rename_i s1 a err heq
      have h2 := stageFold_proj_pres
        (fun sa : Session × AniAcc => sa.1.dma__original_chunk_mappings)
        (import_child pkg dirname)
        (fun a2 sa => import_child_orig pkg dirname a2 sa) xelem.children
        (s, { ani0 := List.replicate 16 [], ani1 := List.replicate 16 [],
              dur0 := 0, dur1 := 0 })
      rw [heq] at h2
      exact h2

theorem finalize_orig (s : Session) :
    ((_finalize s).1).dma__original_chunk_mappings =
      s.dma__original_chunk_mappings := by
  unfold _finalize
  dsimp only
  split <;> rfl

theorem import_rest_orig (cfg : DtefConfig) (pkg : Package)
    (dirname fn_xml fn_var0 fn_var1 fn_var2 : String) (s0 : Session) :
    ((import_rest cfg pkg dirname fn_xml fn_var0 fn_var1 fn_var2 s0).1).dma__original_chunk_mappings =
      s0.dma__original_chunk_mappings := by
  unfold import_rest
  rw [andThenS_orig (fun s2 => s2.dma__original_chunk_mappings)]
  · exact assert_file_exists_orig pkg fn_xml s0
  · intro s1
    rw [andThenS_orig (fun s2 => s2.dma__original_chunk_mappings)]
    · exact open_tileset_orig pkg fn_var0 s1
    · intro s2
      rw [andThenS_orig (fun s2 => s2.dma__original_chunk_mappings)]
      · exact open_tileset_orig pkg fn_var1 s2
      · intro s3
        rw [andThenS_orig (fun s2 => s2.dma__original_chunk_mappings)]
        · exact open_tileset_orig pkg fn_var2 s3
        · intro s4
          rw [andThenS_orig (fun s2 => s2.dma__original_chunk_mappings)]
          · exact parse_xml_orig pkg fn_xml s4
          · intro s5
            rw [andThenS_orig (fun s2 => s2.dma__original_chunk_mappings)]
            · exact stageFold_proj_pres
                (fun s2 => s2.dma__original_chunk_mappings) _
                (fun a s2 => import_variation_orig cfg _ a s2) _ s5
            · intro s6
              rw [andThenS_orig (fun s2 => s2.dma__original_chunk_mappings)]
              · exact import_children_phase_orig pkg dirname s6
              · intro s7
                exact finalize_orig s7

/-- C1: transactional rollback — whenever `do_import` ends in an error, the
target neighbor-mapping table (`dma.chunk_mappings`) after the failed call
is exactly (entry for entry) its value before the call. -/
theorem c1_rollback_on_error (cfg : DtefConfig) (pkg : Package)
    (dirname fn_xml fn_var0 fn_var1 fn_var2 : String) (st : Session)
    (herr : (do_import cfg pkg dirname fn_xml fn_var0 fn_var1 fn_var2 st).2 ≠
      none) :
    (do_import cfg pkg dirname fn_xml fn_var0 fn_var1 fn_var2 st).1.dma.chunk_mappings =
      st.dma.chunk_mappings := by
  unfold do_import at herr ⊢
  cases hr : import_rest cfg pkg dirname fn_xml fn_var0 fn_var1 fn_var2
      (reset_state st dirname) with
  | mk s1 o =>
    cases o with
    | none =>
      exfalso
      rw [hr] at herr
      exact herr rfl
    | some err =>
      have h2 := import_rest_orig cfg pkg dirname fn_xml fn_var0 fn_var1
        fn_var2 (reset_state st dirname)
      rw [hr] at h2
      exact h2

/-- Witness for C1: a package with no files at all makes `do_import` fail at
the first existence check, and the mapping table of the concrete target is
restored verbatim. -/
theorem c1_rollback_on_error_witness :
    (do_import ⟨[[1], [2]], 2, 1⟩ ⟨fun _ => none⟩ "d" "x.xml" "a.png" "b.png"
        "c.png" { exSession with dma := ⟨[5, 6, 7], fun _ _ => 0⟩ }).1.dma.chunk_mappings =
      ({ exSession with dma := ⟨[5, 6, 7], fun _ _ => 0⟩ } : Session).dma.chunk_mappings :=
  c1_rollback_on_error ⟨[[1], [2]], 2, 1⟩ ⟨fun _ => none⟩ "d" "x.xml" "a.png"
    "b.png" "c.png" { exSession with dma := ⟨[5, 6, 7], fun _ _ => 0⟩ }
    (by decide)

end Dtef
